import Mathlib

/-!
Shallow embedding of the `xlsxwriter-rs` binding layer
(`src/libxlsxwriter/src/worksheet.rs`, `conditional_formatting.rs`,
`conditionnal_formatting.rs`) together with a model of the native
spreadsheet engine the bindings wrap, and proofs of the specification
claims about it.

Modelling conventions:
* Rust `u8`/`u16`/`u32`/`usize` values are `Nat` with explicit `% 2 ^ w`
  where overflow matters.
* Rust strings (`&str` / `String`) are byte lists (`List UInt8`); the
  `CString` conversion appends the terminating NUL byte (the source's
  `CString::new(..).unwrap()` aborts on an interior NUL, a case outside
  every claim, so the conversion is modelled totally).
* Raw C pointers to characters are modelled by `CharPtr`: either null or
  a pointer to a buffer holding the given bytes.  Ownership of byte
  buffers is modelled only by the Rust-side owning fields (for example
  `ConditionalFormat.string_value`); a `CharPtr.mk` carries the bytes
  the pointed-to buffer held at the moment of the assignment.
* `f64` values are classified, not computed with: `F64` distinguishes a
  finite value (carried as a rational) from NaN and the two infinities.
  No floating point arithmetic occurs anywhere in the translated code.
* Native (C) routines the bindings call are passed in as explicit
  function arguments of type `SheetState → … → Nat × SheetState`
  returning the `lxw_error` code and the possibly mutated sheet state;
  the Rust wrappers are translated as functions of such a native
  routine.  The native routines themselves are out of the binding crate
  and are modelled from the specification where a claim needs them.
-/

/-- Byte-string representation of a Rust `&str` / `String` (UTF-8 bytes,
without terminating NUL). -/
abbrev RStr := List UInt8

/-- Raw `*mut c_char`: either the null pointer or a pointer to a buffer
holding the given bytes. -/
inductive CharPtr where
  | null : CharPtr
  | mk (bytes : List UInt8) : CharPtr
deriving DecidableEq, Repr

/-- Raw `*mut lxw_format`: either null or the pointer value held by a
Rust `Format` handle. -/
inductive FmtPtr where
  | null : FmtPtr
  | mk (p : Nat) : FmtPtr
deriving DecidableEq, Repr

/-- Classification of an `f64` value: finite (with its rational value),
NaN, or one of the infinities. -/
inductive F64 where
  | finite (q : ℚ) : F64
  | nan : F64
  | posInf : F64
  | negInf : F64
deriving DecidableEq, Repr

/-- Whether an `f64` is a finite number (neither NaN nor infinite). -/
def F64.isFinite : F64 → Bool
  | .finite _ => true
  | _ => false

/-- Whether an `f64` is a finite value lying in the closed interval
from 0 to 100. -/
def F64.inPercentRange : F64 → Bool
  | .finite q => decide (0 ≤ q) && decide (q ≤ 100)
  | _ => false

/-- Rust `Format` handle (`format.rs` is not under `src/`; only its
`format` raw-pointer field is used by the translated code). -/
structure Format where
  format : Nat
deriving DecidableEq, Repr

/-- Rust `FormatColor` (`format.rs` is not under `src/`); only its
`value()` method, producing the color word, is used by the translated
code, so the color is modelled by that word. -/
def FormatColor := Nat
deriving DecidableEq, Repr

/-- Color word of a `FormatColor`. -/
def FormatColor.value (c : FormatColor) : Nat := c

/-- Translation of `crate::convert_bool` (defined in the crate root,
outside `src/`): Rust `bool` to the C `uint8_t` 1 / 0. -/
def convert_bool (b : Bool) : Nat := if b then 1 else 0

/-- Translation of `format.map(|x| x.format).unwrap_or(null_mut())`,
the marshalling of an optional `Format` argument used throughout
`worksheet.rs`. -/
def formatPtrOrNull : Option Format → FmtPtr
  | some f => .mk f.format
  | none => .null

/-- Translation of `option_string_to_raw_pointer` from `worksheet.rs`:
a present string becomes a pointer to its NUL-terminated bytes, an
absent one the null pointer. -/
def option_string_to_raw_pointer : Option RStr → CharPtr
  | some x => .mk (x ++ [0])
  | none => .null

/-- The `lxw_error` success code `LXW_NO_ERROR` (0 in the C enum). -/
def LXW_NO_ERROR : Nat := 0

/-- Translation of the crate's `XlsxError`: it stores the native
`lxw_error` code (the `error` field, from `error.rs`). -/
structure XlsxError where
  error : Nat
deriving DecidableEq, Repr

/-- Translation of `XlsxError::new`: wrap a native return code. -/
def XlsxError.new (code : Nat) : XlsxError := ⟨code⟩

/-- The crate-private code `crate::error::NUMBER_OF_COLUMNS_IS_NOT_MATCHED`
(`error.rs` is not under `src/`); its exact numeric value is immaterial
to every claim, it only has to be a fixed code distinct from the native
ones, which start at 0. -/
def NUMBER_OF_COLUMNS_IS_NOT_MATCHED : Nat := 1000

/-! ### Embedding of `conditional_formatting.rs`

The `libxlsxwriter_sys` constants referenced by the `value()` methods
are the C enum members of libxlsxwriter, declared in the bindings crate
outside `src/`; they are sequential enum values and are reproduced here
with the C declaration order (each family starts with a `NONE` member
at 0 that the Rust enums do not expose). -/

def LXW_CONDITIONAL_TYPE_CELL : Nat := 1
def LXW_CONDITIONAL_TYPE_TEXT : Nat := 2
def LXW_CONDITIONAL_TYPE_TIME_PERIOD : Nat := 3
def LXW_CONDITIONAL_TYPE_AVERAGE : Nat := 4
def LXW_CONDITIONAL_TYPE_DUPLICATE : Nat := 5
def LXW_CONDITIONAL_TYPE_UNIQUE : Nat := 6
def LXW_CONDITIONAL_TYPE_TOP : Nat := 7
def LXW_CONDITIONAL_TYPE_BOTTOM : Nat := 8
def LXW_CONDITIONAL_TYPE_BLANKS : Nat := 9
def LXW_CONDITIONAL_TYPE_NO_BLANKS : Nat := 10
def LXW_CONDITIONAL_TYPE_ERRORS : Nat := 11
def LXW_CONDITIONAL_TYPE_NO_ERRORS : Nat := 12
def LXW_CONDITIONAL_TYPE_FORMULA : Nat := 13
def LXW_CONDITIONAL_2_COLOR_SCALE : Nat := 14
def LXW_CONDITIONAL_3_COLOR_SCALE : Nat := 15
def LXW_CONDITIONAL_DATA_BAR : Nat := 16
def LXW_CONDITIONAL_TYPE_ICON_SETS : Nat := 17

def LXW_CONDITIONAL_CRITERIA_EQUAL_TO : Nat := 1
def LXW_CONDITIONAL_CRITERIA_NOT_EQUAL_TO : Nat := 2
def LXW_CONDITIONAL_CRITERIA_GREATER_THAN : Nat := 3
def LXW_CONDITIONAL_CRITERIA_LESS_THAN : Nat := 4
def LXW_CONDITIONAL_CRITERIA_GREATER_THAN_OR_EQUAL_TO : Nat := 5
def LXW_CONDITIONAL_CRITERIA_LESS_THAN_OR_EQUAL_TO : Nat := 6
def LXW_CONDITIONAL_CRITERIA_BETWEEN : Nat := 7
def LXW_CONDITIONAL_CRITERIA_NOT_BETWEEN : Nat := 8
def LXW_CONDITIONAL_CRITERIA_TEXT_CONTAINING : Nat := 9
def LXW_CONDITIONAL_CRITERIA_TEXT_NOT_CONTAINING : Nat := 10
def LXW_CONDITIONAL_CRITERIA_TEXT_BEGINS_WITH : Nat := 11
def LXW_CONDITIONAL_CRITERIA_TEXT_ENDS_WITH : Nat := 12
def LXW_CONDITIONAL_CRITERIA_TIME_PERIOD_YESTERDAY : Nat := 13
def LXW_CONDITIONAL_CRITERIA_TIME_PERIOD_TODAY : Nat := 14
def LXW_CONDITIONAL_CRITERIA_TIME_PERIOD_TOMORROW : Nat := 15
def LXW_CONDITIONAL_CRITERIA_TIME_PERIOD_LAST_7_DAYS : Nat := 16
def LXW_CONDITIONAL_CRITERIA_TIME_PERIOD_LAST_WEEK : Nat := 17
def LXW_CONDITIONAL_CRITERIA_TIME_PERIOD_THIS_WEEK : Nat := 18
def LXW_CONDITIONAL_CRITERIA_TIME_PERIOD_LAST_MONTH : Nat := 19
def LXW_CONDITIONAL_CRITERIA_TIME_PERIOD_THIS_MONTH : Nat := 20
def LXW_CONDITIONAL_CRITERIA_TIME_PERIOD_NEXT_MONTH : Nat := 21
def LXW_CONDITIONAL_CRITERIA_AVERAGE_ABOVE : Nat := 22
def LXW_CONDITIONAL_CRITERIA_AVERAGE_BELOW : Nat := 23
def LXW_CONDITIONAL_CRITERIA_AVERAGE_ABOVE_OR_EQUAL : Nat := 24
def LXW_CONDITIONAL_CRITERIA_AVERAGE_BELOW_OR_EQUAL : Nat := 25
def LXW_CONDITIONAL_CRITERIA_AVERAGE_1_STD_DEV_ABOVE : Nat := 26
def LXW_CONDITIONAL_CRITERIA_AVERAGE_1_STD_DEV_BELOW : Nat := 27
def LXW_CONDITIONAL_CRITERIA_AVERAGE_2_STD_DEV_ABOVE : Nat := 28
def LXW_CONDITIONAL_CRITERIA_AVERAGE_2_STD_DEV_BELOW : Nat := 29
def LXW_CONDITIONAL_CRITERIA_AVERAGE_3_STD_DEV_ABOVE : Nat := 30
def LXW_CONDITIONAL_CRITERIA_AVERAGE_3_STD_DEV_BELOW : Nat := 31
def LXW_CONDITIONAL_CRITERIA_TOP_OR_BOTTOM_PERCENT : Nat := 32

def LXW_CONDITIONAL_RULE_TYPE_MINIMUM : Nat := 1
def LXW_CONDITIONAL_RULE_TYPE_NUMBER : Nat := 2
def LXW_CONDITIONAL_RULE_TYPE_PERCENT : Nat := 3
def LXW_CONDITIONAL_RULE_TYPE_PERCENTILE : Nat := 4
def LXW_CONDITIONAL_RULE_TYPE_FORMULA : Nat := 5
def LXW_CONDITIONAL_RULE_TYPE_MAXIMUM : Nat := 6

def LXW_CONDITIONAL_BAR_DIRECTION_CONTEXT : Nat := 0
def LXW_CONDITIONAL_BAR_DIRECTION_RIGHT_TO_LEFT : Nat := 1
def LXW_CONDITIONAL_BAR_DIRECTION_LEFT_TO_RIGHT : Nat := 2

def LXW_CONDITIONAL_BAR_AXIS_AUTOMATIC : Nat := 0
def LXW_CONDITIONAL_BAR_AXIS_MIDPOINT : Nat := 1
def LXW_CONDITIONAL_BAR_AXIS_NONE : Nat := 2

def LXW_CONDITIONAL_ICONS_3_ARROWS_COLORED : Nat := 0
def LXW_CONDITIONAL_ICONS_3_ARROWS_GRAY : Nat := 1
def LXW_CONDITIONAL_ICONS_3_FLAGS : Nat := 2
def LXW_CONDITIONAL_ICONS_3_TRAFFIC_LIGHTS_UNRIMMED : Nat := 3
def LXW_CONDITIONAL_ICONS_3_TRAFFIC_LIGHTS_RIMMED : Nat := 4
def LXW_CONDITIONAL_ICONS_3_SIGNS : Nat := 5
def LXW_CONDITIONAL_ICONS_3_SYMBOLS_CIRCLED : Nat := 6
def LXW_CONDITIONAL_ICONS_4_ARROWS_COLORED : Nat := 7
def LXW_CONDITIONAL_ICONS_4_ARROWS_GRAY : Nat := 8
def LXW_CONDITIONAL_ICONS_4_RED_TO_BLACK : Nat := 9
def LXW_CONDITIONAL_ICONS_4_RATINGS : Nat := 10
def LXW_CONDITIONAL_ICONS_4_TRAFFIC_LIGHTS : Nat := 11
def LXW_CONDITIONAL_ICONS_5_ARROWS_COLORED : Nat := 12
def LXW_CONDITIONAL_ICONS_5_ARROWS_GRAY : Nat := 13
def LXW_CONDITIONAL_ICONS_5_RATINGS : Nat := 14
def LXW_CONDITIONAL_ICONS_5_QUARTERS : Nat := 15

/-- The color word `LXW_COLOR_BLACK` (0x000000). -/
def LXW_COLOR_BLACK : Nat := 0

/-- Rust enum `ConditionalType` of `conditional_formatting.rs`. -/
inductive ConditionalType where
  | Cell | Text | TimePeriod | Average | Duplicate | Unique
  | Top | Bottom | Blanks | NoBlanks | Errors | NoErrors
  | Formula | TwoColorScale | ThreeColorScale | DataBar | IconSets
deriving DecidableEq, Repr, Fintype

/-- Rust enum `ConditionalCriteria` of `conditional_formatting.rs`. -/
inductive ConditionalCriteria where
  | EqualTo | NotEqualTo | GreaterThan | LessThan
  | GreaterThanOrEqualTo | LessThanOrEqualTo | Between | NotBetween
  | TextContaining | TextNotContaining | TextBeginsWith | TextEndsWith
  | TimePeriodYesterday | TimePeriodToday | TimePeriodTomorrow
  | TimePeriodLastSevenDays | TimePeriodLastWeek | TimePeriodThisWeek
  | TimePeriodLastMonth | TimePeriodThisMonth | TimePeriodNextMonth
  | AverageAbove | AverageBelow | AverageAboveOrEqual
  | AverageBelowOrEqual | AverageOneStdDevAbove | AverageOneStdDevBelow
  | AverageTwoStdDevAbove | AverageTwoStdDevBelow
  | AverageThreeStdDevAbove | AverageThreeStdDevBelow
  | TopOrBottomPercent
deriving DecidableEq, Repr, Fintype

/-- Rust enum `ConditionalRuleType` of `conditional_formatting.rs`. -/
inductive ConditionalRuleType where
  | Minimum | Number | Percent | Percentile | Formula | Maximum
deriving DecidableEq, Repr, Fintype

/-- Rust enum `ConditionalBarDirection` of `conditional_formatting.rs`. -/
inductive ConditionalBarDirection where
  | Context | RightToLeft | LeftToRight
deriving DecidableEq, Repr, Fintype

/-- Rust enum `ConditionalBarAxisPosition` of
`conditional_formatting.rs`. -/
inductive ConditionalBarAxisPosition where
  | Automatic | Midpoint | None
deriving DecidableEq, Repr, Fintype

/-- Rust enum `ConditionalIconType` of `conditional_formatting.rs`. -/
inductive ConditionalIconType where
  | ThreeArrowsColored | ThreeArrowsGray | ThreeFlags
  | ThreeTrafficLightsUnrimmed | ThreeTrafficLightsRimmed
  | ThreeSigns | ThreeSymbolsCircled
  | FourArrowsColored | FourArrowsGray | FourRedToBlack
  | FourRating | FourTrafficLights
  | FiveArrowsColored | FiveArrowsGray | FiveRatings | FiveQuarters
deriving DecidableEq, Repr, Fintype

/-- Rust `ConditionalType::value`. -/
def ConditionalType.value : ConditionalType → Nat
  | .Cell => LXW_CONDITIONAL_TYPE_CELL
  | .Text => LXW_CONDITIONAL_TYPE_TEXT
  | .TimePeriod => LXW_CONDITIONAL_TYPE_TIME_PERIOD
  | .Average => LXW_CONDITIONAL_TYPE_AVERAGE
  | .Duplicate => LXW_CONDITIONAL_TYPE_DUPLICATE
  | .Unique => LXW_CONDITIONAL_TYPE_UNIQUE
  | .Top => LXW_CONDITIONAL_TYPE_TOP
  | .Bottom => LXW_CONDITIONAL_TYPE_BOTTOM
  | .Blanks => LXW_CONDITIONAL_TYPE_BLANKS
  | .NoBlanks => LXW_CONDITIONAL_TYPE_NO_BLANKS
  | .Errors => LXW_CONDITIONAL_TYPE_ERRORS
  | .NoErrors => LXW_CONDITIONAL_TYPE_NO_ERRORS
  | .Formula => LXW_CONDITIONAL_TYPE_FORMULA
  | .TwoColorScale => LXW_CONDITIONAL_2_COLOR_SCALE
  | .ThreeColorScale => LXW_CONDITIONAL_3_COLOR_SCALE
  | .DataBar => LXW_CONDITIONAL_DATA_BAR
  | .IconSets => LXW_CONDITIONAL_TYPE_ICON_SETS

/-- Rust `ConditionalCriteria::value`. -/
def ConditionalCriteria.value : ConditionalCriteria → Nat
  | .EqualTo => LXW_CONDITIONAL_CRITERIA_EQUAL_TO
  | .NotEqualTo => LXW_CONDITIONAL_CRITERIA_NOT_EQUAL_TO
  | .GreaterThan => LXW_CONDITIONAL_CRITERIA_GREATER_THAN
  | .LessThan => LXW_CONDITIONAL_CRITERIA_LESS_THAN
  | .GreaterThanOrEqualTo => LXW_CONDITIONAL_CRITERIA_GREATER_THAN_OR_EQUAL_TO
  | .LessThanOrEqualTo => LXW_CONDITIONAL_CRITERIA_LESS_THAN_OR_EQUAL_TO
  | .Between => LXW_CONDITIONAL_CRITERIA_BETWEEN
  | .NotBetween => LXW_CONDITIONAL_CRITERIA_NOT_BETWEEN
  | .TextContaining => LXW_CONDITIONAL_CRITERIA_TEXT_CONTAINING
  | .TextNotContaining => LXW_CONDITIONAL_CRITERIA_TEXT_NOT_CONTAINING
  | .TextBeginsWith => LXW_CONDITIONAL_CRITERIA_TEXT_BEGINS_WITH
  | .TextEndsWith => LXW_CONDITIONAL_CRITERIA_TEXT_ENDS_WITH
  | .TimePeriodYesterday => LXW_CONDITIONAL_CRITERIA_TIME_PERIOD_YESTERDAY
  | .TimePeriodToday => LXW_CONDITIONAL_CRITERIA_TIME_PERIOD_TODAY
  | .TimePeriodTomorrow => LXW_CONDITIONAL_CRITERIA_TIME_PERIOD_TOMORROW
  | .TimePeriodLastSevenDays => LXW_CONDITIONAL_CRITERIA_TIME_PERIOD_LAST_7_DAYS
  | .TimePeriodLastWeek => LXW_CONDITIONAL_CRITERIA_TIME_PERIOD_LAST_WEEK
  | .TimePeriodThisWeek => LXW_CONDITIONAL_CRITERIA_TIME_PERIOD_THIS_WEEK
  | .TimePeriodLastMonth => LXW_CONDITIONAL_CRITERIA_TIME_PERIOD_LAST_MONTH
  | .TimePeriodThisMonth => LXW_CONDITIONAL_CRITERIA_TIME_PERIOD_THIS_MONTH
  | .TimePeriodNextMonth => LXW_CONDITIONAL_CRITERIA_TIME_PERIOD_NEXT_MONTH
  | .AverageAbove => LXW_CONDITIONAL_CRITERIA_AVERAGE_ABOVE
  | .AverageBelow => LXW_CONDITIONAL_CRITERIA_AVERAGE_BELOW
  | .AverageAboveOrEqual => LXW_CONDITIONAL_CRITERIA_AVERAGE_ABOVE_OR_EQUAL
  | .AverageBelowOrEqual => LXW_CONDITIONAL_CRITERIA_AVERAGE_BELOW_OR_EQUAL
  | .AverageOneStdDevAbove => LXW_CONDITIONAL_CRITERIA_AVERAGE_1_STD_DEV_ABOVE
  | .AverageOneStdDevBelow => LXW_CONDITIONAL_CRITERIA_AVERAGE_1_STD_DEV_BELOW
  | .AverageTwoStdDevAbove => LXW_CONDITIONAL_CRITERIA_AVERAGE_2_STD_DEV_ABOVE
  | .AverageTwoStdDevBelow => LXW_CONDITIONAL_CRITERIA_AVERAGE_2_STD_DEV_BELOW
  | .AverageThreeStdDevAbove => LXW_CONDITIONAL_CRITERIA_AVERAGE_3_STD_DEV_ABOVE
  | .AverageThreeStdDevBelow => LXW_CONDITIONAL_CRITERIA_AVERAGE_3_STD_DEV_BELOW
  | .TopOrBottomPercent => LXW_CONDITIONAL_CRITERIA_TOP_OR_BOTTOM_PERCENT

/-- Rust `ConditionalRuleType::value`. -/
def ConditionalRuleType.value : ConditionalRuleType → Nat
  | .Minimum => LXW_CONDITIONAL_RULE_TYPE_MINIMUM
  | .Number => LXW_CONDITIONAL_RULE_TYPE_NUMBER
  | .Percent => LXW_CONDITIONAL_RULE_TYPE_PERCENT
  | .Percentile => LXW_CONDITIONAL_RULE_TYPE_PERCENTILE
  | .Formula => LXW_CONDITIONAL_RULE_TYPE_FORMULA
  | .Maximum => LXW_CONDITIONAL_RULE_TYPE_MAXIMUM

/-- Rust `ConditionalBarDirection::value`. -/
def ConditionalBarDirection.value : ConditionalBarDirection → Nat
  | .Context => LXW_CONDITIONAL_BAR_DIRECTION_CONTEXT
  | .RightToLeft => LXW_CONDITIONAL_BAR_DIRECTION_RIGHT_TO_LEFT
  | .LeftToRight => LXW_CONDITIONAL_BAR_DIRECTION_LEFT_TO_RIGHT

/-- Rust `ConditionalBarAxisPosition::value`. -/
def ConditionalBarAxisPosition.value : ConditionalBarAxisPosition → Nat
  | .Automatic => LXW_CONDITIONAL_BAR_AXIS_AUTOMATIC
  | .Midpoint => LXW_CONDITIONAL_BAR_AXIS_MIDPOINT
  | .None => LXW_CONDITIONAL_BAR_AXIS_NONE

/-- Rust `ConditionalIconType::value`. -/
def ConditionalIconType.value : ConditionalIconType → Nat
  | .ThreeArrowsColored => LXW_CONDITIONAL_ICONS_3_ARROWS_COLORED
  | .ThreeArrowsGray => LXW_CONDITIONAL_ICONS_3_ARROWS_GRAY
  | .ThreeFlags => LXW_CONDITIONAL_ICONS_3_FLAGS
  | .ThreeTrafficLightsUnrimmed => LXW_CONDITIONAL_ICONS_3_TRAFFIC_LIGHTS_UNRIMMED
  | .ThreeTrafficLightsRimmed => LXW_CONDITIONAL_ICONS_3_TRAFFIC_LIGHTS_RIMMED
  | .ThreeSigns => LXW_CONDITIONAL_ICONS_3_SIGNS
  | .ThreeSymbolsCircled => LXW_CONDITIONAL_ICONS_3_SYMBOLS_CIRCLED
  | .FourArrowsColored => LXW_CONDITIONAL_ICONS_4_ARROWS_COLORED
  | .FourArrowsGray => LXW_CONDITIONAL_ICONS_4_ARROWS_GRAY
  | .FourRedToBlack => LXW_CONDITIONAL_ICONS_4_RED_TO_BLACK
  | .FourRating => LXW_CONDITIONAL_ICONS_4_RATINGS
  | .FourTrafficLights => LXW_CONDITIONAL_ICONS_4_TRAFFIC_LIGHTS
  | .FiveArrowsColored => LXW_CONDITIONAL_ICONS_5_ARROWS_COLORED
  | .FiveArrowsGray => LXW_CONDITIONAL_ICONS_5_ARROWS_GRAY
  | .FiveRatings => LXW_CONDITIONAL_ICONS_5_RATINGS
  | .FiveQuarters => LXW_CONDITIONAL_ICONS_5_QUARTERS

/-- The C struct `lxw_conditional_format` as populated by the binding
(field-for-field translation of the struct literal in
`ConditionalFormat::new`; pointer fields use `CharPtr` / `FmtPtr`). -/
structure LxwConditionalFormat where
  type_ : Nat
  criteria : Nat
  value : F64
  value_string : CharPtr
  format : FmtPtr
  min_value : F64
  min_value_string : CharPtr
  min_rule_type : Nat
  min_color : Nat
  mid_value : F64
  mid_value_string : CharPtr
  mid_rule_type : Nat
  mid_color : Nat
  max_value : F64
  max_value_string : CharPtr
  max_rule_type : Nat
  max_color : Nat
  bar_color : Nat
  bar_only : Nat
  data_bar_2010 : Nat
  bar_solid : Nat
  bar_negative_color : Nat
  bar_border_color : Nat
  bar_negative_border_color : Nat
  bar_negative_color_same : Nat
  bar_negative_border_color_same : Nat
  bar_no_border : Nat
  bar_direction : Nat
  bar_axis_position : Nat
  bar_axis_color : Nat
  icon_style : Nat
  reverse_icons : Nat
  icons_only : Nat
  multi_range : CharPtr
  stop_if_true : Nat
deriving DecidableEq, Repr

/-- Rust struct `ConditionalFormat` of `conditional_formatting.rs`:
the C struct plus the private owning field `string_value`. -/
structure ConditionalFormat where
  _internal_format : LxwConditionalFormat
  string_value : Option (List UInt8)
deriving DecidableEq, Repr

/-- Translation of `option_str_to_cstr_bytes` from
`conditional_formatting.rs`: the NUL-terminated bytes of a present
string (`CString::new(..).into_bytes_with_nul()`). -/
def option_str_to_cstr_bytes (s : Option RStr) : Option (List UInt8) :=
  s.map (fun x => x ++ [0])

/-- Pointer to the buffer of an optional byte vector, as produced by
the `as_mut().map(|x| x.as_mut_ptr()).unwrap_or(null_mut())` pattern of
`conditional_formatting.rs`. -/
def bytesPtrOrNull : Option (List UInt8) → CharPtr
  | some b => .mk b
  | none => .null

/-- Rust `ConditionalFormat::new`. -/
def ConditionalFormat.new (format : Format) : ConditionalFormat :=
  { _internal_format :=
      { type_ := LXW_CONDITIONAL_TYPE_CELL
        criteria := LXW_CONDITIONAL_CRITERIA_EQUAL_TO
        value := .finite 0
        value_string := .null
        format := .mk format.format
        min_value := .finite 0
        min_value_string := .null
        min_rule_type := LXW_CONDITIONAL_RULE_TYPE_NUMBER
        min_color := LXW_COLOR_BLACK
        mid_value := .finite 0
        mid_value_string := .null
        mid_rule_type := LXW_CONDITIONAL_RULE_TYPE_NUMBER
        mid_color := LXW_COLOR_BLACK
        max_value := .finite 0
        max_value_string := .null
        max_rule_type := LXW_CONDITIONAL_RULE_TYPE_NUMBER
        max_color := LXW_COLOR_BLACK
        bar_color := LXW_COLOR_BLACK
        bar_only := 0
        data_bar_2010 := 0
        bar_solid := 0
        bar_negative_color := LXW_COLOR_BLACK
        bar_border_color := LXW_COLOR_BLACK
        bar_negative_border_color := LXW_COLOR_BLACK
        bar_negative_color_same := 0
        bar_negative_border_color_same := 0
        bar_no_border := 0
        bar_direction := LXW_CONDITIONAL_BAR_DIRECTION_CONTEXT
        bar_axis_position := LXW_CONDITIONAL_BAR_AXIS_AUTOMATIC
        bar_axis_color := LXW_COLOR_BLACK
        icon_style := LXW_CONDITIONAL_ICONS_3_ARROWS_COLORED
        reverse_icons := 0
        icons_only := 0
        multi_range := .null
        stop_if_true := 0 }
    string_value := none }

/-- Rust `ConditionalFormat::set_conditional_type`. -/
def ConditionalFormat.set_conditional_type (cf : ConditionalFormat)
    (conditional_type : ConditionalType) : ConditionalFormat :=
  { cf with _internal_format :=
      { cf._internal_format with type_ := conditional_type.value } }

/-- Rust `ConditionalFormat::set_criteria`. -/
def ConditionalFormat.set_criteria (cf : ConditionalFormat)
    (criteria : ConditionalCriteria) : ConditionalFormat :=
  { cf with _internal_format :=
      { cf._internal_format with criteria := criteria.value } }

/-- Rust `ConditionalFormat::set_value`. -/
def ConditionalFormat.set_value (cf : ConditionalFormat)
    (value : F64) : ConditionalFormat :=
  { cf with _internal_format :=
      { cf._internal_format with value := value } }

/-- Rust `ConditionalFormat::set_value_string`: the NUL-terminated copy
of the argument is stored in the owning field `string_value`, and the C
field `value_string` is set to the pointer to that buffer. -/
def ConditionalFormat.set_value_string (cf : ConditionalFormat)
    (value_string : Option RStr) : ConditionalFormat :=
  let sv := option_str_to_cstr_bytes value_string
  { _internal_format :=
      { cf._internal_format with value_string := bytesPtrOrNull sv }
    string_value := sv }

/-- Rust `ConditionalFormat::set_format`. -/
def ConditionalFormat.set_format (cf : ConditionalFormat)
    (format : Format) : ConditionalFormat :=
  { cf with _internal_format :=
      { cf._internal_format with format := .mk format.format } }

/-- Rust `ConditionalFormat::set_min_value`. -/
def ConditionalFormat.set_min_value (cf : ConditionalFormat)
    (min_value : F64) : ConditionalFormat :=
  { cf with _internal_format :=
      { cf._internal_format with min_value := min_value } }

/-- Rust `ConditionalFormat::set_min_value_string`: the C field is set
to the pointer of a temporary byte vector that is dropped at the end of
the statement; no owning field of the struct is updated. -/
def ConditionalFormat.set_min_value_string (cf : ConditionalFormat)
    (min_value_string : Option RStr) : ConditionalFormat :=
  { cf with _internal_format :=
      { cf._internal_format with
          min_value_string :=
            bytesPtrOrNull (option_str_to_cstr_bytes min_value_string) } }

/-- Rust `ConditionalFormat::set_min_rule_type`. -/
def ConditionalFormat.set_min_rule_type (cf : ConditionalFormat)
    (min_rule_type : ConditionalRuleType) : ConditionalFormat :=
  { cf with _internal_format :=
      { cf._internal_format with min_rule_type := min_rule_type.value } }

/-- Rust `ConditionalFormat::set_min_color`. -/
def ConditionalFormat.set_min_color (cf : ConditionalFormat)
    (min_color : FormatColor) : ConditionalFormat :=
  { cf with _internal_format :=
      { cf._internal_format with min_color := min_color.value } }

/-- Rust `ConditionalFormat::set_mid_value`. -/
def ConditionalFormat.set_mid_value (cf : ConditionalFormat)
    (mid_value : F64) : ConditionalFormat :=
  { cf with _internal_format :=
      { cf._internal_format with mid_value := mid_value } }

/-- Rust `ConditionalFormat::set_mid_value_string` (same temporary
pointer pattern as `set_min_value_string`). -/
def ConditionalFormat.set_mid_value_string (cf : ConditionalFormat)
    (mid_value_string : Option RStr) : ConditionalFormat :=
  { cf with _internal_format :=
      { cf._internal_format with
          mid_value_string :=
            bytesPtrOrNull (option_str_to_cstr_bytes mid_value_string) } }

/-- Rust `ConditionalFormat::set_mid_rule_type`. -/
def ConditionalFormat.set_mid_rule_type (cf : ConditionalFormat)
    (mid_rule_type : ConditionalRuleType) : ConditionalFormat :=
  { cf with _internal_format :=
      { cf._internal_format with mid_rule_type := mid_rule_type.value } }

/-- Rust `ConditionalFormat::set_mid_color`. -/
def ConditionalFormat.set_mid_color (cf : ConditionalFormat)
    (mid_color : FormatColor) : ConditionalFormat :=
  { cf with _internal_format :=
      { cf._internal_format with mid_color := mid_color.value } }

/-- Rust `ConditionalFormat::set_max_value`. -/
def ConditionalFormat.set_max_value (cf : ConditionalFormat)
    (max_value : F64) : ConditionalFormat :=
  { cf with _internal_format :=
      { cf._internal_format with max_value := max_value } }

/-- Rust `ConditionalFormat::set_max_value_string` (same temporary
pointer pattern as `set_min_value_string`). -/
def ConditionalFormat.set_max_value_string (cf : ConditionalFormat)
    (max_value_string : Option RStr) : ConditionalFormat :=
  { cf with _internal_format :=
      { cf._internal_format with
          max_value_string :=
            bytesPtrOrNull (option_str_to_cstr_bytes max_value_string) } }

/-- Rust `ConditionalFormat::set_max_rule_type`. -/
def ConditionalFormat.set_max_rule_type (cf : ConditionalFormat)
    (max_rule_type : ConditionalRuleType) : ConditionalFormat :=
  { cf with _internal_format :=
      { cf._internal_format with max_rule_type := max_rule_type.value } }

/-- Rust `ConditionalFormat::set_max_color`. -/
def ConditionalFormat.set_max_color (cf : ConditionalFormat)
    (max_color : FormatColor) : ConditionalFormat :=
  { cf with _internal_format :=
      { cf._internal_format with max_color := max_color.value } }

/-- Rust `ConditionalFormat::set_bar_color`. -/
def ConditionalFormat.set_bar_color (cf : ConditionalFormat)
    (bar_color : FormatColor) : ConditionalFormat :=
  { cf with _internal_format :=
      { cf._internal_format with bar_color := bar_color.value } }

/-- Rust `ConditionalFormat::set_bar_only`. -/
def ConditionalFormat.set_bar_only (cf : ConditionalFormat)
    (bar_only : Bool) : ConditionalFormat :=
  { cf with _internal_format :=
      { cf._internal_format with bar_only := convert_bool bar_only } }

/-- Rust `ConditionalFormat::set_data_bar_2010`. -/
def ConditionalFormat.set_data_bar_2010 (cf : ConditionalFormat)
    (data_bar_2010 : Bool) : ConditionalFormat :=
  { cf with _internal_format :=
      { cf._internal_format with data_bar_2010 := convert_bool data_bar_2010 } }

/-- Rust `ConditionalFormat::set_bar_solid`. -/
def ConditionalFormat.set_bar_solid (cf : ConditionalFormat)
    (bar_solid : Bool) : ConditionalFormat :=
  { cf with _internal_format :=
      { cf._internal_format with bar_solid := convert_bool bar_solid } }

/-- Rust `ConditionalFormat::set_bar_negative_color`. -/
def ConditionalFormat.set_bar_negative_color (cf : ConditionalFormat)
    (bar_negative_color : FormatColor) : ConditionalFormat :=
  { cf with _internal_format :=
      { cf._internal_format with
          bar_negative_color := bar_negative_color.value } }

/-- Rust `ConditionalFormat::set_bar_border_color`. -/
def ConditionalFormat.set_bar_border_color (cf : ConditionalFormat)
    (bar_border_color : FormatColor) : ConditionalFormat :=
  { cf with _internal_format :=
      { cf._internal_format with
          bar_border_color := bar_border_color.value } }

/-- Rust `ConditionalFormat::set_bar_negative_border_color`. -/
def ConditionalFormat.set_bar_negative_border_color (cf : ConditionalFormat)
    (bar_negative_border_color : FormatColor) : ConditionalFormat :=
  { cf with _internal_format :=
      { cf._internal_format with
          bar_negative_border_color := bar_negative_border_color.value } }

/-- Rust `ConditionalFormat::set_bar_negative_color_same`. -/
def ConditionalFormat.set_bar_negative_color_same (cf : ConditionalFormat)
    (bar_negative_color_same : Bool) : ConditionalFormat :=
  { cf with _internal_format :=
      { cf._internal_format with
          bar_negative_color_same := convert_bool bar_negative_color_same } }

/-- Rust `ConditionalFormat::set_bar_negative_border_color_same`. -/
def ConditionalFormat.set_bar_negative_border_color_same
    (cf : ConditionalFormat)
    (bar_negative_border_color_same : Bool) : ConditionalFormat :=
  { cf with _internal_format :=
      { cf._internal_format with
          bar_negative_border_color_same :=
            convert_bool bar_negative_border_color_same } }

/-- Rust `ConditionalFormat::set_bar_no_border`. -/
def ConditionalFormat.set_bar_no_border (cf : ConditionalFormat)
    (bar_no_border : Bool) : ConditionalFormat :=
  { cf with _internal_format :=
      { cf._internal_format with bar_no_border := convert_bool bar_no_border } }

/-- Rust `ConditionalFormat::set_bar_direction`. -/
def ConditionalFormat.set_bar_direction (cf : ConditionalFormat)
    (bar_direction : ConditionalBarDirection) : ConditionalFormat :=
  { cf with _internal_format :=
      { cf._internal_format with bar_direction := bar_direction.value } }

/-- Rust `ConditionalFormat::set_bar_axis_position`. -/
def ConditionalFormat.set_bar_axis_position (cf : ConditionalFormat)
    (bar_axis_position : ConditionalBarAxisPosition) : ConditionalFormat :=
  { cf with _internal_format :=
      { cf._internal_format with
          bar_axis_position := bar_axis_position.value } }

/-- Rust `ConditionalFormat::set_bar_axis_color`. -/
def ConditionalFormat.set_bar_axis_color (cf : ConditionalFormat)
    (bar_axis_color : FormatColor) : ConditionalFormat :=
  { cf with _internal_format :=
      { cf._internal_format with bar_axis_color := bar_axis_color.value } }

/-- Rust `ConditionalFormat::set_icon_style`. -/
def ConditionalFormat.set_icon_style (cf : ConditionalFormat)
    (icon_style : ConditionalIconType) : ConditionalFormat :=
  { cf with _internal_format :=
      { cf._internal_format with icon_style := icon_style.value } }

/-- Rust `ConditionalFormat::set_reverse_icons`. -/
def ConditionalFormat.set_reverse_icons (cf : ConditionalFormat)
    (reverse_icons : Bool) : ConditionalFormat :=
  { cf with _internal_format :=
      { cf._internal_format with reverse_icons := convert_bool reverse_icons } }

/-- Rust `ConditionalFormat::set_icons_only`. -/
def ConditionalFormat.set_icons_only (cf : ConditionalFormat)
    (icons_only : Bool) : ConditionalFormat :=
  { cf with _internal_format :=
      { cf._internal_format with icons_only := convert_bool icons_only } }

/-- Rust `ConditionalFormat::set_multi_range` (same temporary pointer
pattern as `set_min_value_string`). -/
def ConditionalFormat.set_multi_range (cf : ConditionalFormat)
    (multi_range : Option RStr) : ConditionalFormat :=
  { cf with _internal_format :=
      { cf._internal_format with
          multi_range :=
            bytesPtrOrNull (option_str_to_cstr_bytes multi_range) } }

/-- Rust `ConditionalFormat::set_stop_if_true`. -/
def ConditionalFormat.set_stop_if_true (cf : ConditionalFormat)
    (stop_if_true : Bool) : ConditionalFormat :=
  { cf with _internal_format :=
      { cf._internal_format with stop_if_true := convert_bool stop_if_true } }

/-! ### Embedding of the duplicate module `conditionnal_formatting.rs`

The module declares parallel enums (differently spelled module name)
and a plain-old-data `ConditionnalFormat` struct; its `impl` block is
empty (a lone TODO comment), so the module defines no operations. -/

/-- Rust enum `ConditionnalType` of `conditionnal_formatting.rs`. -/
inductive ConditionnalType where
  | Cell | Text | TimePeriod | Average | Duplicate | Unique
  | Top | Bottom | Blanks | NoBlanks | Errors | NoErrors
  | Formula | TwoColorScale | ThreeColorScale | DataBar | IconSets
deriving DecidableEq, Repr, Fintype

/-- Rust enum `ConditionnalCriteria` of `conditionnal_formatting.rs`. -/
inductive ConditionnalCriteria where
  | EqualTo | NotEqualTo | GreaterThan | LessThan
  | GreaterThanOrEqualTo | LessThanOrEqualTo | Between | NotBetween
  | TextContaining | TextNotContaining | TextBeginsWith | TextEndsWith
  | TimePeriodYesterday | TimePeriodToday | TimePeriodTomorrow
  | TimePeriodLastSevenDays | TimePeriodLastWeek | TimePeriodThisWeek
  | TimePeriodLastMonth | TimePeriodThisMonth | TimePeriodNextMonth
  | AverageAbove | AverageBelow | AverageAboveOrEqual
  | AverageBelowOrEqual | AverageOneStdDevAbove | AverageOneStdDevBelow
  | AverageTwoStdDevAbove | AverageTwoStdDevBelow
  | AverageThreeStdDevAbove | AverageThreeStdDevBelow
  | TopOrBottomPercent
deriving DecidableEq, Repr, Fintype

/-- Rust enum `ConditionnalRuleType` of `conditionnal_formatting.rs`. -/
inductive ConditionnalRuleType where
  | Minimum | Number | Percent | Percentile | Formula | Maximum
deriving DecidableEq, Repr, Fintype

/-- Rust enum `ConditionnalBarDirection` of
`conditionnal_formatting.rs`. -/
inductive ConditionnalBarDirection where
  | Context | RightToLeft | LeftToRight
deriving DecidableEq, Repr, Fintype

/-- Rust enum `ConditionnalBarAxisPosition` of
`conditionnal_formatting.rs`. -/
inductive ConditionnalBarAxisPosition where
  | Automatic | Midpoint | None
deriving DecidableEq, Repr, Fintype

/-- Rust enum `ConditionnalIconType` of `conditionnal_formatting.rs`. -/
inductive ConditionnalIconType where
  | ThreeArrowsColored | ThreeArrowsGray | ThreeFlags
  | ThreeTrafficLightsUnrimmed | ThreeTrafficLightsRimmed
  | ThreeSigns | ThreeSymbolsCircled
  | FourArrowsColored | FourArrowsGray | FourRedToBlack
  | FourRating | FourTrafficLights
  | FiveArrowsColored | FiveArrowsGray | FiveRatings | FiveQuarters
deriving DecidableEq, Repr, Fintype

/-- Rust struct `ConditionnalFormat` of `conditionnal_formatting.rs`:
plain public fields, no operations (its `impl` block is empty). -/
structure ConditionnalFormat where
  _internal_format : Nat
  conditionnal_type : ConditionnalType
  criteria : ConditionnalCriteria
  value : F64
  value_string : Option RStr
  format : Format
  min_value : F64
  min_value_string : Option RStr
  min_rule_type : ConditionnalRuleType
  min_color : FormatColor
  mid_value : F64
  mid_value_string : Option RStr
  mid_rule_type : ConditionnalRuleType
  mid_color : FormatColor
  max_value : F64
  max_value_string : Option RStr
  max_rule_type : ConditionnalRuleType
  max_color : FormatColor
  bar_color : FormatColor
  bar_only : Bool
  data_bar_2010 : Bool
  bar_solid : Bool
  bar_negative_color : FormatColor
  bar_border_color : FormatColor
  bar_negative_border_color : FormatColor
  bar_negative_color_same : Bool
  bar_negative_border_color_same : Bool
  bar_no_border : Bool
  bar_direction : ConditionnalBarDirection
  bar_axis_position : ConditionnalBarAxisPosition
  bar_axis_color : FormatColor
  icon_style : ConditionnalIconType
  reverse_icons : Bool
  icons_only : Bool
  multi_range : Option RStr
  stop_if_true : Bool

/-! ### Variant lists, in Rust declaration order, for both enum
families, and the name-preserving renaming functions between them. -/

/-- Variants of `ConditionalType`, in declaration order. -/
def conditionalTypeVariants : List ConditionalType :=
  [.Cell, .Text, .TimePeriod, .Average, .Duplicate, .Unique, .Top,
   .Bottom, .Blanks, .NoBlanks, .Errors, .NoErrors, .Formula,
   .TwoColorScale, .ThreeColorScale, .DataBar, .IconSets]

/-- Variants of `ConditionnalType`, in declaration order. -/
def conditionnalTypeVariants : List ConditionnalType :=
  [.Cell, .Text, .TimePeriod, .Average, .Duplicate, .Unique, .Top,
   .Bottom, .Blanks, .NoBlanks, .Errors, .NoErrors, .Formula,
   .TwoColorScale, .ThreeColorScale, .DataBar, .IconSets]

/-- Variants of `ConditionalCriteria`, in declaration order. -/
def conditionalCriteriaVariants : List ConditionalCriteria :=
  [.EqualTo, .NotEqualTo, .GreaterThan, .LessThan,
   .GreaterThanOrEqualTo, .LessThanOrEqualTo, .Between, .NotBetween,
   .TextContaining, .TextNotContaining, .TextBeginsWith, .TextEndsWith,
   .TimePeriodYesterday, .TimePeriodToday, .TimePeriodTomorrow,
   .TimePeriodLastSevenDays, .TimePeriodLastWeek, .TimePeriodThisWeek,
   .TimePeriodLastMonth, .TimePeriodThisMonth, .TimePeriodNextMonth,
   .AverageAbove, .AverageBelow, .AverageAboveOrEqual,
   .AverageBelowOrEqual, .AverageOneStdDevAbove, .AverageOneStdDevBelow,
   .AverageTwoStdDevAbove, .AverageTwoStdDevBelow,
   .AverageThreeStdDevAbove, .AverageThreeStdDevBelow,
   .TopOrBottomPercent]

/-- Variants of `ConditionnalCriteria`, in declaration order. -/
def conditionnalCriteriaVariants : List ConditionnalCriteria :=
  [.EqualTo, .NotEqualTo, .GreaterThan, .LessThan,
   .GreaterThanOrEqualTo, .LessThanOrEqualTo, .Between, .NotBetween,
   .TextContaining, .TextNotContaining, .TextBeginsWith, .TextEndsWith,
   .TimePeriodYesterday, .TimePeriodToday, .TimePeriodTomorrow,
   .TimePeriodLastSevenDays, .TimePeriodLastWeek, .TimePeriodThisWeek,
   .TimePeriodLastMonth, .TimePeriodThisMonth, .TimePeriodNextMonth,
   .AverageAbove, .AverageBelow, .AverageAboveOrEqual,
   .AverageBelowOrEqual, .AverageOneStdDevAbove, .AverageOneStdDevBelow,
   .AverageTwoStdDevAbove, .AverageTwoStdDevBelow,
   .AverageThreeStdDevAbove, .AverageThreeStdDevBelow,
   .TopOrBottomPercent]

/-- Variants of `ConditionalRuleType`, in declaration order. -/
def conditionalRuleTypeVariants : List ConditionalRuleType :=
  [.Minimum, .Number, .Percent, .Percentile, .Formula, .Maximum]

/-- Variants of `ConditionnalRuleType`, in declaration order. -/
def conditionnalRuleTypeVariants : List ConditionnalRuleType :=
  [.Minimum, .Number, .Percent, .Percentile, .Formula, .Maximum]

/-- Variants of `ConditionalBarDirection`, in declaration order. -/
def conditionalBarDirectionVariants : List ConditionalBarDirection :=
  [.Context, .RightToLeft, .LeftToRight]

/-- Variants of `ConditionnalBarDirection`, in declaration order. -/
def conditionnalBarDirectionVariants : List ConditionnalBarDirection :=
  [.Context, .RightToLeft, .LeftToRight]

/-- Variants of `ConditionalBarAxisPosition`, in declaration order. -/
def conditionalBarAxisPositionVariants : List ConditionalBarAxisPosition :=
  [.Automatic, .Midpoint, .None]

/-- Variants of `ConditionnalBarAxisPosition`, in declaration order. -/
def conditionnalBarAxisPositionVariants : List ConditionnalBarAxisPosition :=
  [.Automatic, .Midpoint, .None]

/-- Variants of `ConditionalIconType`, in declaration order. -/
def conditionalIconTypeVariants : List ConditionalIconType :=
  [.ThreeArrowsColored, .ThreeArrowsGray, .ThreeFlags,
   .ThreeTrafficLightsUnrimmed, .ThreeTrafficLightsRimmed, .ThreeSigns,
   .ThreeSymbolsCircled, .FourArrowsColored, .FourArrowsGray,
   .FourRedToBlack, .FourRating, .FourTrafficLights,
   .FiveArrowsColored, .FiveArrowsGray, .FiveRatings, .FiveQuarters]

/-- Variants of `ConditionnalIconType`, in declaration order. -/
def conditionnalIconTypeVariants : List ConditionnalIconType :=
  [.ThreeArrowsColored, .ThreeArrowsGray, .ThreeFlags,
   .ThreeTrafficLightsUnrimmed, .ThreeTrafficLightsRimmed, .ThreeSigns,
   .ThreeSymbolsCircled, .FourArrowsColored, .FourArrowsGray,
   .FourRedToBlack, .FourRating, .FourTrafficLights,
   .FiveArrowsColored, .FiveArrowsGray, .FiveRatings, .FiveQuarters]

/-- Renaming of `ConditionnalType` to the `ConditionalType` variant of
the same name. -/
def ConditionnalType.rename : ConditionnalType → ConditionalType
  | .Cell => .Cell
  | .Text => .Text
  | .TimePeriod => .TimePeriod
  | .Average => .Average
  | .Duplicate => .Duplicate
  | .Unique => .Unique
  | .Top => .Top
  | .Bottom => .Bottom
  | .Blanks => .Blanks
  | .NoBlanks => .NoBlanks
  | .Errors => .Errors
  | .NoErrors => .NoErrors
  | .Formula => .Formula
  | .TwoColorScale => .TwoColorScale
  | .ThreeColorScale => .ThreeColorScale
  | .DataBar => .DataBar
  | .IconSets => .IconSets

/-- Renaming of `ConditionnalCriteria` to the `ConditionalCriteria`
variant of the same name. -/
def ConditionnalCriteria.rename : ConditionnalCriteria → ConditionalCriteria
  | .EqualTo => .EqualTo
  | .NotEqualTo => .NotEqualTo
  | .GreaterThan => .GreaterThan
  | .LessThan => .LessThan
  | .GreaterThanOrEqualTo => .GreaterThanOrEqualTo
  | .LessThanOrEqualTo => .LessThanOrEqualTo
  | .Between => .Between
  | .NotBetween => .NotBetween
  | .TextContaining => .TextContaining
  | .TextNotContaining => .TextNotContaining
  | .TextBeginsWith => .TextBeginsWith
  | .TextEndsWith => .TextEndsWith
  | .TimePeriodYesterday => .TimePeriodYesterday
  | .TimePeriodToday => .TimePeriodToday
  | .TimePeriodTomorrow => .TimePeriodTomorrow
  | .TimePeriodLastSevenDays => .TimePeriodLastSevenDays
  | .TimePeriodLastWeek => .TimePeriodLastWeek
  | .TimePeriodThisWeek => .TimePeriodThisWeek
  | .TimePeriodLastMonth => .TimePeriodLastMonth
  | .TimePeriodThisMonth => .TimePeriodThisMonth
  | .TimePeriodNextMonth => .TimePeriodNextMonth
  | .AverageAbove => .AverageAbove
  | .AverageBelow => .AverageBelow
  | .AverageAboveOrEqual => .AverageAboveOrEqual
  | .AverageBelowOrEqual => .AverageBelowOrEqual
  | .AverageOneStdDevAbove => .AverageOneStdDevAbove
  | .AverageOneStdDevBelow => .AverageOneStdDevBelow
  | .AverageTwoStdDevAbove => .AverageTwoStdDevAbove
  | .AverageTwoStdDevBelow => .AverageTwoStdDevBelow
  | .AverageThreeStdDevAbove => .AverageThreeStdDevAbove
  | .AverageThreeStdDevBelow => .AverageThreeStdDevBelow
  | .TopOrBottomPercent => .TopOrBottomPercent

/-- Renaming of `ConditionnalRuleType` to the `ConditionalRuleType`
variant of the same name. -/
def ConditionnalRuleType.rename : ConditionnalRuleType → ConditionalRuleType
  | .Minimum => .Minimum
  | .Number => .Number
  | .Percent => .Percent
  | .Percentile => .Percentile
  | .Formula => .Formula
  | .Maximum => .Maximum

/-- Renaming of `ConditionnalBarDirection` to the
`ConditionalBarDirection` variant of the same name. -/
def ConditionnalBarDirection.rename :
    ConditionnalBarDirection → ConditionalBarDirection
  | .Context => .Context
  | .RightToLeft => .RightToLeft
  | .LeftToRight => .LeftToRight

/-- Renaming of `ConditionnalBarAxisPosition` to the
`ConditionalBarAxisPosition` variant of the same name. -/
def ConditionnalBarAxisPosition.rename :
    ConditionnalBarAxisPosition → ConditionalBarAxisPosition
  | .Automatic => .Automatic
  | .Midpoint => .Midpoint
  | .None => .None

/-- Renaming of `ConditionnalIconType` to the `ConditionalIconType`
variant of the same name. -/
def ConditionnalIconType.rename : ConditionnalIconType → ConditionalIconType
  | .ThreeArrowsColored => .ThreeArrowsColored
  | .ThreeArrowsGray => .ThreeArrowsGray
  | .ThreeFlags => .ThreeFlags
  | .ThreeTrafficLightsUnrimmed => .ThreeTrafficLightsUnrimmed
  | .ThreeTrafficLightsRimmed => .ThreeTrafficLightsRimmed
  | .ThreeSigns => .ThreeSigns
  | .ThreeSymbolsCircled => .ThreeSymbolsCircled
  | .FourArrowsColored => .FourArrowsColored
  | .FourArrowsGray => .FourArrowsGray
  | .FourRedToBlack => .FourRedToBlack
  | .FourRating => .FourRating
  | .FourTrafficLights => .FourTrafficLights
  | .FiveArrowsColored => .FiveArrowsColored
  | .FiveArrowsGray => .FiveArrowsGray
  | .FiveRatings => .FiveRatings
  | .FiveQuarters => .FiveQuarters

/-! ### Sheet state and the modelled native routines

The native library holds the sheet state; the binding only forwards
calls.  The state and the native routines for cell writes and merges
are therefore modelled from the specification (sections 4.2 and 6/7 of
`spec.md`). -/

/-- Value stored in a cell (only the kinds the translated calls write). -/
inductive CellValue where
  | number (x : F64) : CellValue
  | string (s : RStr) : CellValue
deriving DecidableEq, Repr

/-- Rectangle of a cell merge (`first_row, first_col, last_row,
last_col`, all inclusive). -/
structure MergedRange where
  first_row : Nat
  first_col : Nat
  last_row : Nat
  last_col : Nat
deriving DecidableEq, Repr

/-- Whether a cell address lies inside a merged rectangle. -/
def MergedRange.contains (m : MergedRange) (row col : Nat) : Bool :=
  decide (m.first_row ≤ row) && decide (row ≤ m.last_row) &&
  decide (m.first_col ≤ col) && decide (col ≤ m.last_col)

/-- Whether two merged rectangles share at least one cell. -/
def MergedRange.overlaps (m n : MergedRange) : Bool :=
  decide (max m.first_row n.first_row ≤ min m.last_row n.last_row) &&
  decide (max m.first_col n.first_col ≤ min m.last_col n.last_col)

/-- Modelled from the spec: the per-sheet state of the native library
(the sparse cell grid and the list of merged ranges of section 4.2 of
`spec.md`; the grid is an association list whose head entry wins, so
overwriting is last-write-wins). -/
structure SheetState where
  cells : List ((Nat × Nat) × CellValue)
  merges : List MergedRange
deriving DecidableEq, Repr

/-- The empty sheet. -/
def SheetState.empty : SheetState := ⟨[], []⟩

/-- Value of a cell in the grid (`none` when the cell is untouched). -/
def SheetState.cellAt (s : SheetState) (row col : Nat) : Option CellValue :=
  s.cells.lookup (row, col)

/-- Whether a cell is covered by a merge (inside some merged rectangle
but not its top-left anchor cell). -/
def SheetState.covered (s : SheetState) (row col : Nat) : Bool :=
  s.merges.any (fun m =>
    m.contains row col &&
    !(decide (row = m.first_row) && decide (col = m.first_col)))

/-- Addresses for which the serializer emits a cell record (the spec's
serializer walks the populated cells of the grid and emits a record for
each; untouched cells produce none). -/
def SheetState.serializedAddrs (s : SheetState) : List (Nat × Nat) :=
  s.cells.map Prod.fst

/-- Modelled from the spec: the native bounds check on a cell address —
rows 0..1,048,575 and columns 0..16,383 are within the sheet extents,
anything beyond fails (section 6 of `spec.md`). -/
def checkDimensions (row col : Nat) : Bool :=
  decide (row ≤ 1048575) && decide (col ≤ 16383)

/-- Modelled from the spec: native error code for an address beyond the
sheet extents (`OutOfRange` of the spec's error taxonomy; the exact
nonzero numeric value is immaterial). -/
def LXW_ERROR_OUT_OF_RANGE : Nat := 19

/-- Modelled from the spec: native error code for a non-finite numeric
write (`InvalidNumber` of the spec's error taxonomy). -/
def LXW_ERROR_INVALID_NUMBER : Nat := 20

/-- Modelled from the spec: native error code for a write into a merge-
covered cell or a merge overlapping an existing merge
(`OverlappingMerge` of the spec's error taxonomy). -/
def LXW_ERROR_OVERLAPPING_MERGE : Nat := 21

/-- Modelled from the spec: the native cell write shared by the value-
writing routines — bounds check, then the value-specific validity
check, then the covered-cell check; on success the cell is stored
(last-write-wins), on any failure the state is untouched (sections 4.2
and 7 of `spec.md`). -/
def nativeSetCell (s : SheetState) (row col : Nat) (valueOk : Bool)
    (badValueCode : Nat) (v : CellValue) : Nat × SheetState :=
  if !(checkDimensions row col) then (LXW_ERROR_OUT_OF_RANGE, s)
  else if !valueOk then (badValueCode, s)
  else if s.covered row col then (LXW_ERROR_OVERLAPPING_MERGE, s)
  else (LXW_NO_ERROR, { s with cells := ((row, col), v) :: s.cells })

/-- Modelled from the spec: `worksheet_write_number` in the native
library — a non-finite value fails with `InvalidNumber` and mutates
nothing (section 4.2 of `spec.md`). -/
def nativeWriteNumber (s : SheetState) (row col : Nat) (number : F64)
    (_format : FmtPtr) : Nat × SheetState :=
  nativeSetCell s row col number.isFinite LXW_ERROR_INVALID_NUMBER
    (.number number)

/-- Modelled from the spec: `worksheet_write_string` in the native
library. -/
def nativeWriteString (s : SheetState) (row col : Nat) (text : RStr)
    (_format : FmtPtr) : Nat × SheetState :=
  nativeSetCell s row col true LXW_ERROR_INVALID_NUMBER (.string text)

/-- Modelled from the spec: `worksheet_merge_range` in the native
library — bounds check, then failure with `OverlappingMerge` when the
rectangle shares a cell with an existing merge; on success the value is
written into the top-left cell and the rectangle is recorded as merged
(section 4.2 of `spec.md`). -/
def nativeMergeRange (s : SheetState) (first_row first_col last_row
    last_col : Nat) (string : RStr) (_format : FmtPtr) :
    Nat × SheetState :=
  let rect : MergedRange := ⟨first_row, first_col, last_row, last_col⟩
  if !(checkDimensions first_row first_col &&
       checkDimensions last_row last_col) then (LXW_ERROR_OUT_OF_RANGE, s)
  else if s.merges.any (fun m => m.overlaps rect) then
    (LXW_ERROR_OVERLAPPING_MERGE, s)
  else
    (LXW_NO_ERROR,
     { cells := ((first_row, first_col), .string string) :: s.cells
       merges := rect :: s.merges })

/-! ### Translation of the `Worksheet` wrappers of `worksheet.rs`

Each wrapper takes the native routine it forwards to as its first
argument; the routine returns the `lxw_error` code and the new sheet
state.  The wrapper returns the sheet state together with the
`Result<(), XlsxError>` computed exactly as in the source: `Ok(())`
when the code is `LXW_NO_ERROR`, `Err(XlsxError::new(code))`
otherwise. -/

/-- Rust `Worksheet::write_comment` (the text is marshalled to its
NUL-terminated bytes). -/
def Worksheet.write_comment
    (native : SheetState → Nat → Nat → RStr → Nat × SheetState)
    (s : SheetState) (row col : Nat) (text : RStr) :
    SheetState × Except XlsxError Unit :=
  let r := native s row col (text ++ [0])
  (r.2, if r.1 = LXW_NO_ERROR then .ok () else .error (XlsxError.new r.1))

/-- Rust `Worksheet::write_number`. -/
def Worksheet.write_number
    (native : SheetState → Nat → Nat → F64 → FmtPtr → Nat × SheetState)
    (s : SheetState) (row col : Nat) (number : F64)
    (format : Option Format) : SheetState × Except XlsxError Unit :=
  let r := native s row col number (formatPtrOrNull format)
  (r.2, if r.1 = LXW_NO_ERROR then .ok () else .error (XlsxError.new r.1))

/-- Rust `Worksheet::write_string`. -/
def Worksheet.write_string
    (native : SheetState → Nat → Nat → RStr → FmtPtr → Nat × SheetState)
    (s : SheetState) (row col : Nat) (text : RStr)
    (format : Option Format) : SheetState × Except XlsxError Unit :=
  let r := native s row col (text ++ [0]) (formatPtrOrNull format)
  (r.2, if r.1 = LXW_NO_ERROR then .ok () else .error (XlsxError.new r.1))

/-- Rust `Worksheet::write_formula`. -/
def Worksheet.write_formula
    (native : SheetState → Nat → Nat → RStr → FmtPtr → Nat × SheetState)
    (s : SheetState) (row col : Nat) (formula : RStr)
    (format : Option Format) : SheetState × Except XlsxError Unit :=
  let r := native s row col (formula ++ [0]) (formatPtrOrNull format)
  (r.2, if r.1 = LXW_NO_ERROR then .ok () else .error (XlsxError.new r.1))

/-- Rust `Worksheet::write_boolean` (the `bool` is marshalled to 1/0). -/
def Worksheet.write_boolean
    (native : SheetState → Nat → Nat → Nat → FmtPtr → Nat × SheetState)
    (s : SheetState) (row col : Nat) (value : Bool)
    (format : Option Format) : SheetState × Except XlsxError Unit :=
  let r := native s row col (if value then 1 else 0) (formatPtrOrNull format)
  (r.2, if r.1 = LXW_NO_ERROR then .ok () else .error (XlsxError.new r.1))

/-- Rust `Worksheet::write_blank`. -/
def Worksheet.write_blank
    (native : SheetState → Nat → Nat → FmtPtr → Nat × SheetState)
    (s : SheetState) (row col : Nat)
    (format : Option Format) : SheetState × Except XlsxError Unit :=
  let r := native s row col (formatPtrOrNull format)
  (r.2, if r.1 = LXW_NO_ERROR then .ok () else .error (XlsxError.new r.1))

/-- Rust `Worksheet::merge_range`. -/
def Worksheet.merge_range
    (native : SheetState → Nat → Nat → Nat → Nat → RStr → FmtPtr →
      Nat × SheetState)
    (s : SheetState) (first_row first_col last_row last_col : Nat)
    (string : RStr) (format : Option Format) :
    SheetState × Except XlsxError Unit :=
  let r := native s first_row first_col last_row last_col
    (string ++ [0]) (formatPtrOrNull format)
  (r.2, if r.1 = LXW_NO_ERROR then .ok () else .error (XlsxError.new r.1))

/-! ### Translation of the worksheet-table types of `worksheet.rs`

The `libxlsxwriter_sys` table constants are the C enum members of
libxlsxwriter, declared in the bindings crate outside `src/`. -/

def LXW_TABLE_STYLE_TYPE_DEFAULT : Nat := 0
def LXW_TABLE_STYLE_TYPE_LIGHT : Nat := 1
def LXW_TABLE_STYLE_TYPE_MEDIUM : Nat := 2
def LXW_TABLE_STYLE_TYPE_DARK : Nat := 3

def LXW_TABLE_FUNCTION_AVERAGE : Nat := 101
def LXW_TABLE_FUNCTION_COUNT_NUMS : Nat := 102
def LXW_TABLE_FUNCTION_COUNT : Nat := 103
def LXW_TABLE_FUNCTION_MAX : Nat := 104
def LXW_TABLE_FUNCTION_MIN : Nat := 105
def LXW_TABLE_FUNCTION_STD_DEV : Nat := 106
def LXW_TABLE_FUNCTION_SUM : Nat := 107
def LXW_TABLE_FUNCTION_VAR : Nat := 108

/-- Rust enum `TableStyleType` of `worksheet.rs`. -/
inductive TableStyleType where
  | Default | Light | Medium | Dark
deriving DecidableEq, Repr

/-- Rust `impl From<TableStyleType> for u8`. -/
def TableStyleType.toU8 : TableStyleType → Nat
  | .Dark => LXW_TABLE_STYLE_TYPE_DARK
  | .Light => LXW_TABLE_STYLE_TYPE_LIGHT
  | .Medium => LXW_TABLE_STYLE_TYPE_MEDIUM
  | .Default => LXW_TABLE_STYLE_TYPE_DEFAULT

/-- Rust enum `TableTotalFunction` of `worksheet.rs`. -/
inductive TableTotalFunction where
  | None | Average | CountNums | Count | Max | Min | StdDev | Sum | Var
deriving DecidableEq, Repr

/-- Rust `impl From<TableTotalFunction> for u8`. -/
def TableTotalFunction.toU8 : TableTotalFunction → Nat
  | .None => 0
  | .Average => LXW_TABLE_FUNCTION_AVERAGE
  | .CountNums => LXW_TABLE_FUNCTION_COUNT_NUMS
  | .Count => LXW_TABLE_FUNCTION_COUNT
  | .Max => LXW_TABLE_FUNCTION_MAX
  | .Min => LXW_TABLE_FUNCTION_MIN
  | .StdDev => LXW_TABLE_FUNCTION_STD_DEV
  | .Sum => LXW_TABLE_FUNCTION_SUM
  | .Var => LXW_TABLE_FUNCTION_VAR

/-- Rust struct `TableColumn` of `worksheet.rs`. -/
structure TableColumn where
  header : Option RStr
  formula : Option RStr
  total_string : Option RStr
  total_function : TableTotalFunction
  header_format : Option Format
  format : Option Format
  total_value : F64

/-- The C struct `lxw_table_column`. -/
structure LxwTableColumn where
  header : CharPtr
  formula : CharPtr
  total_string : CharPtr
  total_function : Nat
  header_format : FmtPtr
  format : FmtPtr
  total_value : F64
deriving DecidableEq, Repr

/-- Rust `impl From<TableColumn> for lxw_table_column`. -/
def TableColumn.toLxw (c : TableColumn) : LxwTableColumn :=
  { header := option_string_to_raw_pointer c.header
    formula := option_string_to_raw_pointer c.formula
    total_string := option_string_to_raw_pointer c.total_string
    total_function := c.total_function.toU8
    header_format := formatPtrOrNull c.header_format
    format := formatPtrOrNull c.format
    total_value := c.total_value }

/-- Rust struct `TableOptions` of `worksheet.rs`. -/
structure TableOptions where
  name : Option RStr
  no_header_row : Bool
  no_autofilter : Bool
  no_banded_rows : Bool
  banded_columns : Bool
  first_column : Bool
  last_column : Bool
  style_type : TableStyleType
  style_type_number : Nat
  total_row : Bool
  columns : Option (List TableColumn)

/-- The C struct `lxw_table_options` (the `columns` pointer array of
the source collapses to the list of converted columns, null when
absent). -/
structure LxwTableOptions where
  name : CharPtr
  no_header_row : Nat
  no_autofilter : Nat
  no_banded_rows : Nat
  banded_columns : Nat
  first_column : Nat
  last_column : Nat
  style_type : Nat
  style_type_number : Nat
  total_row : Nat
  columns : Option (List LxwTableColumn)
deriving DecidableEq, Repr

/-- Rust `TableOptions::into_lxw_table_options`. -/
def TableOptions.into_lxw_table_options (o : TableOptions) :
    LxwTableOptions :=
  { name := option_string_to_raw_pointer o.name
    no_header_row := convert_bool o.no_header_row
    no_autofilter := convert_bool o.no_autofilter
    no_banded_rows := convert_bool o.no_banded_rows
    banded_columns := convert_bool o.banded_columns
    first_column := convert_bool o.first_column
    last_column := convert_bool o.last_column
    style_type := o.style_type.toU8
    style_type_number := o.style_type_number
    total_row := convert_bool o.total_row
    columns := o.columns.map (fun z => z.map TableColumn.toLxw) }

/-- The range width `last_col - first_col + 1` as `Worksheet::add_table`
computes it: in `u16` arithmetic (wrap-around modulo 2^16) before the
widening `.into()` conversion; `first_col` and `last_col` are `u16`
values, so both are below 2^16. -/
def addTableRangeWidth (first_col last_col : Nat) : Nat :=
  ((last_col + 2 ^ 16 - first_col) % 2 ^ 16 + 1) % 2 ^ 16

/-- The column-count pre-check of `Worksheet::add_table`:
`options.as_ref().map(|x| x.columns.as_ref().map(|y| y.len() !=
(last_col - first_col + 1).into()).unwrap_or(false)).unwrap_or(false)`. -/
def tableColumnsMismatch (first_col last_col : Nat)
    (options : Option TableOptions) : Bool :=
  (options.map (fun x =>
    (x.columns.map (fun y =>
      decide (y.length ≠ addTableRangeWidth first_col last_col))).getD
      false)).getD false

/-- Rust `Worksheet::add_table`: when the column-count pre-check fires,
the function returns `Err(XlsxError { error:
NUMBER_OF_COLUMNS_IS_NOT_MATCHED })` before the native call; otherwise
the options are converted and the native routine is invoked, and its
code is translated as in every other wrapper. -/
def Worksheet.add_table
    (native : SheetState → Nat → Nat → Nat → Nat →
      Option LxwTableOptions → Nat × SheetState)
    (s : SheetState) (first_row first_col last_row last_col : Nat)
    (options : Option TableOptions) :
    SheetState × Except XlsxError Unit :=
  if tableColumnsMismatch first_col last_col options then
    (s, .error (XlsxError.mk NUMBER_OF_COLUMNS_IS_NOT_MATCHED))
  else
    let opts := options.map TableOptions.into_lxw_table_options
    let r := native s first_row first_col last_row last_col opts
    (r.2, if r.1 = LXW_NO_ERROR then .ok () else .error (XlsxError.new r.1))

/-! ### Translation of `Worksheet::write_rich_string` -/

/-- The C struct `lxw_rich_string_tuple`: the format pointer and the
pointer to the NUL-terminated fragment bytes. -/
structure LxwRichStringTuple where
  format : FmtPtr
  string : List UInt8
deriving DecidableEq, Repr

/-- The pointer array `Worksheet::write_rich_string` builds and hands
to the native call: each fragment's `CString` bytes are collected
(`c_str`), zipped back with the fragments into
`lxw_rich_string_tuple`s, the tuples are turned into pointers, and a
null pointer is pushed at the end (`none` is the null entry). -/
def richStringArray (text : List (RStr × Option Format)) :
    List (Option LxwRichStringTuple) :=
  let c_str : List (List UInt8) := text.map (fun x => x.1 ++ [0])
  let rich_text : List LxwRichStringTuple :=
    (text.zip c_str).map (fun p => ⟨formatPtrOrNull p.1.2, p.2⟩)
  rich_text.map some ++ [none]

/-- Rust `Worksheet::write_rich_string`. -/
def Worksheet.write_rich_string
    (native : SheetState → Nat → Nat → List (Option LxwRichStringTuple) →
      FmtPtr → Nat × SheetState)
    (s : SheetState) (row col : Nat) (text : List (RStr × Option Format))
    (format : Option Format) : SheetState × Except XlsxError Unit :=
  let r := native s row col (richStringArray text) (formatPtrOrNull format)
  (r.2, if r.1 = LXW_NO_ERROR then .ok () else .error (XlsxError.new r.1))

/-! ### Builder reachability and the spec-side rule validator -/

/-- Values of `ConditionalFormat` producible by the public builder API
of `conditional_formatting.rs`: `new` followed by any sequence of the
`set_*` methods. -/
inductive Reachable : ConditionalFormat → Prop where
  | new (f : Format) : Reachable (ConditionalFormat.new f)
  | set_conditional_type {cf} (v : ConditionalType) :
      Reachable cf → Reachable (cf.set_conditional_type v)
  | set_criteria {cf} (v : ConditionalCriteria) :
      Reachable cf → Reachable (cf.set_criteria v)
  | set_value {cf} (v : F64) : Reachable cf → Reachable (cf.set_value v)
  | set_value_string {cf} (v : Option RStr) :
      Reachable cf → Reachable (cf.set_value_string v)
  | set_format {cf} (v : Format) :
      Reachable cf → Reachable (cf.set_format v)
  | set_min_value {cf} (v : F64) :
      Reachable cf → Reachable (cf.set_min_value v)
  | set_min_value_string {cf} (v : Option RStr) :
      Reachable cf → Reachable (cf.set_min_value_string v)
  | set_min_rule_type {cf} (v : ConditionalRuleType) :
      Reachable cf → Reachable (cf.set_min_rule_type v)
  | set_min_color {cf} (v : FormatColor) :
      Reachable cf → Reachable (cf.set_min_color v)
  | set_mid_value {cf} (v : F64) :
      Reachable cf → Reachable (cf.set_mid_value v)
  | set_mid_value_string {cf} (v : Option RStr) :
      Reachable cf → Reachable (cf.set_mid_value_string v)
  | set_mid_rule_type {cf} (v : ConditionalRuleType) :
      Reachable cf → Reachable (cf.set_mid_rule_type v)
  | set_mid_color {cf} (v : FormatColor) :
      Reachable cf → Reachable (cf.set_mid_color v)
  | set_max_value {cf} (v : F64) :
      Reachable cf → Reachable (cf.set_max_value v)
  | set_max_value_string {cf} (v : Option RStr) :
      Reachable cf → Reachable (cf.set_max_value_string v)
  | set_max_rule_type {cf} (v : ConditionalRuleType) :
      Reachable cf → Reachable (cf.set_max_rule_type v)
  | set_max_color {cf} (v : FormatColor) :
      Reachable cf → Reachable (cf.set_max_color v)
  | set_bar_color {cf} (v : FormatColor) :
      Reachable cf → Reachable (cf.set_bar_color v)
  | set_bar_only {cf} (v : Bool) :
      Reachable cf → Reachable (cf.set_bar_only v)
  | set_data_bar_2010 {cf} (v : Bool) :
      Reachable cf → Reachable (cf.set_data_bar_2010 v)
  | set_bar_solid {cf} (v : Bool) :
      Reachable cf → Reachable (cf.set_bar_solid v)
  | set_bar_negative_color {cf} (v : FormatColor) :
      Reachable cf → Reachable (cf.set_bar_negative_color v)
  | set_bar_border_color {cf} (v : FormatColor) :
      Reachable cf → Reachable (cf.set_bar_border_color v)
  | set_bar_negative_border_color {cf} (v : FormatColor) :
      Reachable cf → Reachable (cf.set_bar_negative_border_color v)
  | set_bar_negative_color_same {cf} (v : Bool) :
      Reachable cf → Reachable (cf.set_bar_negative_color_same v)
  | set_bar_negative_border_color_same {cf} (v : Bool) :
      Reachable cf → Reachable (cf.set_bar_negative_border_color_same v)
  | set_bar_no_border {cf} (v : Bool) :
      Reachable cf → Reachable (cf.set_bar_no_border v)
  | set_bar_direction {cf} (v : ConditionalBarDirection) :
      Reachable cf → Reachable (cf.set_bar_direction v)
  | set_bar_axis_position {cf} (v : ConditionalBarAxisPosition) :
      Reachable cf → Reachable (cf.set_bar_axis_position v)
  | set_bar_axis_color {cf} (v : FormatColor) :
      Reachable cf → Reachable (cf.set_bar_axis_color v)
  | set_icon_style {cf} (v : ConditionalIconType) :
      Reachable cf → Reachable (cf.set_icon_style v)
  | set_reverse_icons {cf} (v : Bool) :
      Reachable cf → Reachable (cf.set_reverse_icons v)
  | set_icons_only {cf} (v : Bool) :
      Reachable cf → Reachable (cf.set_icons_only v)
  | set_multi_range {cf} (v : Option RStr) :
      Reachable cf → Reachable (cf.set_multi_range v)
  | set_stop_if_true {cf} (v : Bool) :
      Reachable cf → Reachable (cf.set_stop_if_true v)

/-- Whether a `CharPtr` points to a non-empty C string (some byte
before the terminating NUL). -/
def CharPtr.nonEmptyString : CharPtr → Bool
  | .null => false
  | .mk b => decide (b ≠ []) && decide (b ≠ [0])

/-- Modelled from the spec: the construction-time validity of a
conditional-formatting rule (section 4.3 of `spec.md`) — a `Formula`
rule requires non-empty formula text, a `TopOrBottomPercent` criteria
requires a bound between 0 and 100, and the text criteria require a
string operand. -/
def specRuleValid (cf : ConditionalFormat) : Bool :=
  (if cf._internal_format.type_ = LXW_CONDITIONAL_TYPE_FORMULA then
    cf._internal_format.value_string.nonEmptyString
   else true) &&
  (if cf._internal_format.criteria =
      LXW_CONDITIONAL_CRITERIA_TOP_OR_BOTTOM_PERCENT then
    cf._internal_format.value.inPercentRange
   else true) &&
  (if cf._internal_format.criteria = LXW_CONDITIONAL_CRITERIA_TEXT_CONTAINING ∨
      cf._internal_format.criteria =
        LXW_CONDITIONAL_CRITERIA_TEXT_NOT_CONTAINING ∨
      cf._internal_format.criteria =
        LXW_CONDITIONAL_CRITERIA_TEXT_BEGINS_WITH ∨
      cf._internal_format.criteria = LXW_CONDITIONAL_CRITERIA_TEXT_ENDS_WITH
   then cf._internal_format.value_string.nonEmptyString
   else true)

/-! ### Remaining argument types of the fallible `Worksheet` wrappers

`CommentOptions` and `RowColOptions` are type aliases for
`libxlsxwriter_sys` structs (declared in the bindings crate outside
`src/`); the wrappers pass them through untouched, so they are opaque
handles here.  `Chart` (`chart.rs`) and `DataValidation`
(`data_validation.rs`) are crate types outside `src/`; the wrappers use
only the `chart` raw-pointer field respectively the C struct produced
by `to_c_struct`, so each is modelled by exactly that datum. -/

/-- The sys struct behind `CommentOptions`, passed through untouched. -/
structure CommentOptions where
  handle : Nat
deriving DecidableEq, Repr

/-- The sys struct behind `RowColOptions`, passed through untouched. -/
structure RowColOptions where
  handle : Nat
deriving DecidableEq, Repr

/-- Rust `Chart` handle: only its `chart` raw pointer is used. -/
structure Chart where
  chart : Nat
deriving DecidableEq, Repr

/-- Rust `DataValidation`: the wrapper builds the C struct via
`to_c_struct` and passes its pointer, so the value is modelled by that
C struct value. -/
structure DataValidation where
  c_struct : Nat
deriving DecidableEq, Repr

/-- Rust `DataValidation::to_c_struct` (module outside `src/`): the C
struct handed to the native validation routines. -/
def DataValidation.to_c_struct (v : DataValidation) : Nat := v.c_struct

/-- Rust struct `DateTime` of `worksheet.rs` (`i16`/`i8` fields are
integers, the seconds are an `f64`). -/
structure DateTime where
  year : Int
  month : Int
  day : Int
  hour : Int
  min : Int
  second : F64
deriving DecidableEq, Repr

/-- The C struct `lxw_datetime`. -/
structure LxwDatetime where
  year : Int
  month : Int
  day : Int
  hour : Int
  min : Int
  sec : F64
deriving DecidableEq, Repr

/-- Rust `impl From<&DateTime> for lxw_datetime` of `worksheet.rs`. -/
def DateTime.toLxw (datetime : DateTime) : LxwDatetime :=
  { year := datetime.year
    month := datetime.month
    day := datetime.day
    hour := datetime.hour
    min := datetime.min
    sec := datetime.second }

/-- Rust struct `ImageOptions` of `worksheet.rs`. -/
structure ImageOptions where
  x_offset : Int
  y_offset : Int
  x_scale : F64
  y_scale : F64
deriving DecidableEq, Repr

/-- The C struct `lxw_image_options`. -/
structure LxwImageOptions where
  x_offset : Int
  y_offset : Int
  x_scale : F64
  y_scale : F64
  description : CharPtr
  url : CharPtr
  tip : CharPtr
  object_position : Nat
  decorative : Nat
deriving DecidableEq, Repr

/-- Rust `impl From<&ImageOptions> for lxw_image_options` of
`worksheet.rs`. -/
def ImageOptions.toLxw (options : ImageOptions) : LxwImageOptions :=
  { x_offset := options.x_offset
    y_offset := options.y_offset
    x_scale := options.x_scale
    y_scale := options.y_scale
    description := .null
    url := .null
    tip := .null
    object_position := 0
    decorative := 0 }

/-- Rust struct `HeaderFooterOptions` of `worksheet.rs`. -/
structure HeaderFooterOptions where
  margin : F64
deriving DecidableEq, Repr

/-- The C struct `lxw_header_footer_options` (the image fields are
always set to null by the conversion). -/
structure LxwHeaderFooterOptions where
  margin : F64
  image_left : CharPtr
  image_center : CharPtr
  image_right : CharPtr
deriving DecidableEq, Repr

/-- Rust `impl From<&HeaderFooterOptions> for
lxw_header_footer_options` of `worksheet.rs`. -/
def HeaderFooterOptions.toLxw (options : HeaderFooterOptions) :
    LxwHeaderFooterOptions :=
  { margin := options.margin
    image_left := .null
    image_center := .null
    image_right := .null }

/-- The Ok/Err contract a wrapper result has against the code its
native call returned: `Ok(())` exactly for `LXW_NO_ERROR`, and `Err`
carrying exactly that code otherwise. -/
@[reducible] def passThroughPair (res : Except XlsxError Unit)
    (code : Nat) : Prop :=
  (res = .ok () ↔ code = LXW_NO_ERROR) ∧
  (code ≠ LXW_NO_ERROR → res = .error (XlsxError.new code))

/-- Rust `Worksheet::write_comment_opt`. -/
def Worksheet.write_comment_opt
    (native : SheetState → Nat → Nat → RStr → CommentOptions →
      Nat × SheetState)
    (s : SheetState) (row col : Nat) (text : RStr)
    (options : CommentOptions) : SheetState × Except XlsxError Unit :=
  let r := native s row col (text ++ [0]) options
  (r.2, if r.1 = LXW_NO_ERROR then .ok () else .error (XlsxError.new r.1))

/-- Rust `Worksheet::write_array_formula`. -/
def Worksheet.write_array_formula
    (native : SheetState → Nat → Nat → Nat → Nat → RStr → FmtPtr →
      Nat × SheetState)
    (s : SheetState) (first_row first_col last_row last_col : Nat)
    (formula : RStr) (format : Option Format) :
    SheetState × Except XlsxError Unit :=
  let r := native s first_row first_col last_row last_col
    (formula ++ [0]) (formatPtrOrNull format)
  (r.2, if r.1 = LXW_NO_ERROR then .ok () else .error (XlsxError.new r.1))

/-- Rust `Worksheet::write_datetime` (the `DateTime` is marshalled to
the C `lxw_datetime` first). -/
def Worksheet.write_datetime
    (native : SheetState → Nat → Nat → LxwDatetime → FmtPtr →
      Nat × SheetState)
    (s : SheetState) (row col : Nat) (datetime : DateTime)
    (format : Option Format) : SheetState × Except XlsxError Unit :=
  let r := native s row col datetime.toLxw (formatPtrOrNull format)
  (r.2, if r.1 = LXW_NO_ERROR then .ok () else .error (XlsxError.new r.1))

/-- Rust `Worksheet::write_url`. -/
def Worksheet.write_url
    (native : SheetState → Nat → Nat → RStr → FmtPtr → Nat × SheetState)
    (s : SheetState) (row col : Nat) (url : RStr)
    (format : Option Format) : SheetState × Except XlsxError Unit :=
  let r := native s row col (url ++ [0]) (formatPtrOrNull format)
  (r.2, if r.1 = LXW_NO_ERROR then .ok () else .error (XlsxError.new r.1))

/-- Rust `Worksheet::write_formula_num`. -/
def Worksheet.write_formula_num
    (native : SheetState → Nat → Nat → RStr → FmtPtr → F64 →
      Nat × SheetState)
    (s : SheetState) (row col : Nat) (formula : RStr)
    (format : Option Format) (number : F64) :
    SheetState × Except XlsxError Unit :=
  let r := native s row col (formula ++ [0]) (formatPtrOrNull format)
    number
  (r.2, if r.1 = LXW_NO_ERROR then .ok () else .error (XlsxError.new r.1))

/-- Rust `Worksheet::write_formula_str`. -/
def Worksheet.write_formula_str
    (native : SheetState → Nat → Nat → RStr → FmtPtr → RStr →
      Nat × SheetState)
    (s : SheetState) (row col : Nat) (formula : RStr)
    (format : Option Format) (result : RStr) :
    SheetState × Except XlsxError Unit :=
  let r := native s row col (formula ++ [0]) (formatPtrOrNull format)
    (result ++ [0])
  (r.2, if r.1 = LXW_NO_ERROR then .ok () else .error (XlsxError.new r.1))

/-- Rust `Worksheet::set_row`. -/
def Worksheet.set_row
    (native : SheetState → Nat → F64 → FmtPtr → Nat × SheetState)
    (s : SheetState) (row : Nat) (height : F64)
    (format : Option Format) : SheetState × Except XlsxError Unit :=
  let r := native s row height (formatPtrOrNull format)
  (r.2, if r.1 = LXW_NO_ERROR then .ok () else .error (XlsxError.new r.1))

/-- Rust `Worksheet::set_row_opt`. -/
def Worksheet.set_row_opt
    (native : SheetState → Nat → F64 → FmtPtr → RowColOptions →
      Nat × SheetState)
    (s : SheetState) (row : Nat) (height : F64) (format : Option Format)
    (options : RowColOptions) : SheetState × Except XlsxError Unit :=
  let r := native s row height (formatPtrOrNull format) options
  (r.2, if r.1 = LXW_NO_ERROR then .ok () else .error (XlsxError.new r.1))

/-- Rust `Worksheet::set_row_pixels`. -/
def Worksheet.set_row_pixels
    (native : SheetState → Nat → Nat → FmtPtr → Nat × SheetState)
    (s : SheetState) (row pixels : Nat)
    (format : Option Format) : SheetState × Except XlsxError Unit :=
  let r := native s row pixels (formatPtrOrNull format)
  (r.2, if r.1 = LXW_NO_ERROR then .ok () else .error (XlsxError.new r.1))

/-- Rust `Worksheet::set_row_pixels_opt`. -/
def Worksheet.set_row_pixels_opt
    (native : SheetState → Nat → Nat → FmtPtr → RowColOptions →
      Nat × SheetState)
    (s : SheetState) (row pixels : Nat) (format : Option Format)
    (options : RowColOptions) : SheetState × Except XlsxError Unit :=
  let r := native s row pixels (formatPtrOrNull format) options
  (r.2, if r.1 = LXW_NO_ERROR then .ok () else .error (XlsxError.new r.1))

/-- Rust `Worksheet::set_column`. -/
def Worksheet.set_column
    (native : SheetState → Nat → Nat → F64 → FmtPtr → Nat × SheetState)
    (s : SheetState) (first_col last_col : Nat) (width : F64)
    (format : Option Format) : SheetState × Except XlsxError Unit :=
  let r := native s first_col last_col width (formatPtrOrNull format)
  (r.2, if r.1 = LXW_NO_ERROR then .ok () else .error (XlsxError.new r.1))

/-- Rust `Worksheet::set_column_opt`. -/
def Worksheet.set_column_opt
    (native : SheetState → Nat → Nat → F64 → FmtPtr → RowColOptions →
      Nat × SheetState)
    (s : SheetState) (first_col last_col : Nat) (width : F64)
    (format : Option Format) (options : RowColOptions) :
    SheetState × Except XlsxError Unit :=
  let r := native s first_col last_col width (formatPtrOrNull format)
    options
  (r.2, if r.1 = LXW_NO_ERROR then .ok () else .error (XlsxError.new r.1))

/-- Rust `Worksheet::set_column_pixels`. -/
def Worksheet.set_column_pixels
    (native : SheetState → Nat → Nat → Nat → FmtPtr → Nat × SheetState)
    (s : SheetState) (first_col last_col pixels : Nat)
    (format : Option Format) : SheetState × Except XlsxError Unit :=
  let r := native s first_col last_col pixels (formatPtrOrNull format)
  (r.2, if r.1 = LXW_NO_ERROR then .ok () else .error (XlsxError.new r.1))

/-- Rust `Worksheet::set_column_pixels_opt`. -/
def Worksheet.set_column_pixels_opt
    (native : SheetState → Nat → Nat → Nat → FmtPtr → RowColOptions →
      Nat × SheetState)
    (s : SheetState) (first_col last_col pixels : Nat)
    (format : Option Format) (options : RowColOptions) :
    SheetState × Except XlsxError Unit :=
  let r := native s first_col last_col pixels (formatPtrOrNull format)
    options
  (r.2, if r.1 = LXW_NO_ERROR then .ok () else .error (XlsxError.new r.1))

/-- Rust `Worksheet::insert_image`. -/
def Worksheet.insert_image
    (native : SheetState → Nat → Nat → RStr → Nat × SheetState)
    (s : SheetState) (row col : Nat) (filename : RStr) :
    SheetState × Except XlsxError Unit :=
  let r := native s row col (filename ++ [0])
  (r.2, if r.1 = LXW_NO_ERROR then .ok () else .error (XlsxError.new r.1))

/-- Rust `Worksheet::insert_image_opt` (the `ImageOptions` are
marshalled to the C struct first). -/
def Worksheet.insert_image_opt
    (native : SheetState → Nat → Nat → RStr → LxwImageOptions →
      Nat × SheetState)
    (s : SheetState) (row col : Nat) (filename : RStr)
    (opt : ImageOptions) : SheetState × Except XlsxError Unit :=
  let r := native s row col (filename ++ [0]) opt.toLxw
  (r.2, if r.1 = LXW_NO_ERROR then .ok () else .error (XlsxError.new r.1))

/-- Rust `Worksheet::insert_image_buffer` (the native call receives the
buffer pointer and its length). -/
def Worksheet.insert_image_buffer
    (native : SheetState → Nat → Nat → List UInt8 → Nat →
      Nat × SheetState)
    (s : SheetState) (row col : Nat) (buffer : List UInt8) :
    SheetState × Except XlsxError Unit :=
  let r := native s row col buffer buffer.length
  (r.2, if r.1 = LXW_NO_ERROR then .ok () else .error (XlsxError.new r.1))

/-- Rust `Worksheet::insert_image_buffer_opt`. -/
def Worksheet.insert_image_buffer_opt
    (native : SheetState → Nat → Nat → List UInt8 → Nat →
      LxwImageOptions → Nat × SheetState)
    (s : SheetState) (row col : Nat) (buffer : List UInt8)
    (opt : ImageOptions) : SheetState × Except XlsxError Unit :=
  let r := native s row col buffer buffer.length opt.toLxw
  (r.2, if r.1 = LXW_NO_ERROR then .ok () else .error (XlsxError.new r.1))

/-- Rust `Worksheet::insert_chart` (only the chart raw pointer is
forwarded). -/
def Worksheet.insert_chart
    (native : SheetState → Nat → Nat → Nat → Nat × SheetState)
    (s : SheetState) (row column : Nat) (chart : Chart) :
    SheetState × Except XlsxError Unit :=
  let r := native s row column chart.chart
  (r.2, if r.1 = LXW_NO_ERROR then .ok () else .error (XlsxError.new r.1))

/-- Rust `Worksheet::autofilter`. -/
def Worksheet.autofilter
    (native : SheetState → Nat → Nat → Nat → Nat → Nat × SheetState)
    (s : SheetState) (first_row first_col last_row last_col : Nat) :
    SheetState × Except XlsxError Unit :=
  let r := native s first_row first_col last_row last_col
  (r.2, if r.1 = LXW_NO_ERROR then .ok () else .error (XlsxError.new r.1))

/-- Rust `Worksheet::data_validation_cell` (the validation is
marshalled through `to_c_struct`). -/
def Worksheet.data_validation_cell
    (native : SheetState → Nat → Nat → Nat → Nat × SheetState)
    (s : SheetState) (row col : Nat) (validation : DataValidation) :
    SheetState × Except XlsxError Unit :=
  let r := native s row col validation.to_c_struct
  (r.2, if r.1 = LXW_NO_ERROR then .ok () else .error (XlsxError.new r.1))

/-- Rust `Worksheet::data_validation_range`. -/
def Worksheet.data_validation_range
    (native : SheetState → Nat → Nat → Nat → Nat → Nat →
      Nat × SheetState)
    (s : SheetState) (first_row first_col last_row last_col : Nat)
    (validation : DataValidation) : SheetState × Except XlsxError Unit :=
  let r := native s first_row first_col last_row last_col
    validation.to_c_struct
  (r.2, if r.1 = LXW_NO_ERROR then .ok () else .error (XlsxError.new r.1))

/-- Rust `Worksheet::set_header`. -/
def Worksheet.set_header
    (native : SheetState → RStr → Nat × SheetState)
    (s : SheetState) (header : RStr) :
    SheetState × Except XlsxError Unit :=
  let r := native s (header ++ [0])
  (r.2, if r.1 = LXW_NO_ERROR then .ok () else .error (XlsxError.new r.1))

/-- Rust `Worksheet::set_footer`. -/
def Worksheet.set_footer
    (native : SheetState → RStr → Nat × SheetState)
    (s : SheetState) (footer : RStr) :
    SheetState × Except XlsxError Unit :=
  let r := native s (footer ++ [0])
  (r.2, if r.1 = LXW_NO_ERROR then .ok () else .error (XlsxError.new r.1))

/-- Rust `Worksheet::set_header_opt`. -/
def Worksheet.set_header_opt
    (native : SheetState → RStr → LxwHeaderFooterOptions →
      Nat × SheetState)
    (s : SheetState) (header : RStr) (options : HeaderFooterOptions) :
    SheetState × Except XlsxError Unit :=
  let r := native s (header ++ [0]) options.toLxw
  (r.2, if r.1 = LXW_NO_ERROR then .ok () else .error (XlsxError.new r.1))

/-- Rust `Worksheet::set_footer_opt`. -/
def Worksheet.set_footer_opt
    (native : SheetState → RStr → LxwHeaderFooterOptions →
      Nat × SheetState)
    (s : SheetState) (footer : RStr) (options : HeaderFooterOptions) :
    SheetState × Except XlsxError Unit :=
  let r := native s (footer ++ [0]) options.toLxw
  (r.2, if r.1 = LXW_NO_ERROR then .ok () else .error (XlsxError.new r.1))

/-- Rust `Worksheet::set_h_pagebreaks` (the breaks vector gets a 0
terminator pushed before the native call). -/
def Worksheet.set_h_pagebreaks
    (native : SheetState → List Nat → Nat × SheetState)
    (s : SheetState) (breaks : List Nat) :
    SheetState × Except XlsxError Unit :=
  let r := native s (breaks ++ [0])
  (r.2, if r.1 = LXW_NO_ERROR then .ok () else .error (XlsxError.new r.1))

/-- Rust `Worksheet::set_v_pagebreaks`. -/
def Worksheet.set_v_pagebreaks
    (native : SheetState → List Nat → Nat × SheetState)
    (s : SheetState) (breaks : List Nat) :
    SheetState × Except XlsxError Unit :=
  let r := native s (breaks ++ [0])
  (r.2, if r.1 = LXW_NO_ERROR then .ok () else .error (XlsxError.new r.1))

/-- Rust `Worksheet::repeat_rows`. -/
def Worksheet.repeat_rows
    (native : SheetState → Nat → Nat → Nat × SheetState)
    (s : SheetState) (first_row last_row : Nat) :
    SheetState × Except XlsxError Unit :=
  let r := native s first_row last_row
  (r.2, if r.1 = LXW_NO_ERROR then .ok () else .error (XlsxError.new r.1))

/-- Rust `Worksheet::repeat_columns`. -/
def Worksheet.repeat_columns
    (native : SheetState → Nat → Nat → Nat × SheetState)
    (s : SheetState) (first_col last_col : Nat) :
    SheetState × Except XlsxError Unit :=
  let r := native s first_col last_col
  (r.2, if r.1 = LXW_NO_ERROR then .ok () else .error (XlsxError.new r.1))

/-- Rust `Worksheet::print_area`. -/
def Worksheet.print_area
    (native : SheetState → Nat → Nat → Nat → Nat → Nat × SheetState)
    (s : SheetState) (first_row first_col last_row last_col : Nat) :
    SheetState × Except XlsxError Unit :=
  let r := native s first_row first_col last_row last_col
  (r.2, if r.1 = LXW_NO_ERROR then .ok () else .error (XlsxError.new r.1))

/-- Rust `Worksheet::set_vba_name`. -/
def Worksheet.set_vba_name
    (native : SheetState → RStr → Nat × SheetState)
    (s : SheetState) (name : RStr) :
    SheetState × Except XlsxError Unit :=
  let r := native s (name ++ [0])
  (r.2, if r.1 = LXW_NO_ERROR then .ok () else .error (XlsxError.new r.1))

/-- Rust `Worksheet::conditional_format_cell` (the native call receives
the pointer to the C struct inside the `ConditionalFormat`). -/
def Worksheet.conditional_format_cell
    (native : SheetState → Nat → Nat → LxwConditionalFormat →
      Nat × SheetState)
    (s : SheetState) (row col : Nat) (format : ConditionalFormat) :
    SheetState × Except XlsxError Unit :=
  let r := native s row col format._internal_format
  (r.2, if r.1 = LXW_NO_ERROR then .ok () else .error (XlsxError.new r.1))

/-- Rust `Worksheet::conditional_format_range`. -/
def Worksheet.conditional_format_range
    (native : SheetState → Nat → Nat → Nat → Nat →
      LxwConditionalFormat → Nat × SheetState)
    (s : SheetState) (first_row first_col last_row last_col : Nat)
    (format : ConditionalFormat) : SheetState × Except XlsxError Unit :=
  let r := native s first_row first_col last_row last_col
    format._internal_format
  (r.2, if r.1 = LXW_NO_ERROR then .ok () else .error (XlsxError.new r.1))

/-! ### Concrete instances used by witnesses and counterexamples -/

/-- A table column with all-default fields. -/
def sampleTableColumn : TableColumn :=
  { header := none, formula := none, total_string := none,
    total_function := .None, header_format := none, format := none,
    total_value := .finite 0 }

/-- Table options carrying exactly one column. -/
def tableOptionsOneColumn : TableOptions :=
  { name := none, no_header_row := false, no_autofilter := false,
    no_banded_rows := false, banded_columns := false,
    first_column := false, last_column := false, style_type := .Default,
    style_type_number := 0, total_row := false,
    columns := some [sampleTableColumn] }

/-- A native routine that always succeeds and leaves the state alone
(used to exhibit calls whose outcome cannot depend on the native
side). -/
def nativeTableAlwaysOk : SheetState → Nat → Nat → Nat → Nat →
    Option LxwTableOptions → Nat × SheetState :=
  fun s _ _ _ _ _ => (LXW_NO_ERROR, s)

/-! ### Claims about `Worksheet::add_table` -/

/-- C10 counterexample: with `first_col = 0 ≤ last_col = 65535` (both
representable in `u16`), the claimed absence of overflow fails — the
`u16` computation `last_col - first_col + 1` wraps to 0 while the
number of columns in the range is 65536. -/
theorem add_table_width_overflow_cex :
    (0 : Nat) ≤ 65535 ∧ 65535 < 2 ^ 16 ∧
    addTableRangeWidth 0 65535 = 0 ∧ 65535 - 0 + 1 = 65536 := by
  decide

/-- C10 (amended): under `first_col ≤ last_col` and the additional
bound `last_col - first_col < 2 ^ 16 - 1` (which excludes only the
single wrapping pair of the counterexample), the `u16` computation
`last_col - first_col + 1` neither underflows nor overflows and equals
the number of columns in the range. -/
theorem add_table_width_correct (first_col last_col : Nat)
    (hle : first_col ≤ last_col) (hlt : last_col < 2 ^ 16)
    (hwidth : last_col - first_col < 2 ^ 16 - 1) :
    addTableRangeWidth first_col last_col = last_col - first_col + 1 := by
  unfold addTableRangeWidth
  have h1 : last_col + 2 ^ 16 - first_col = 2 ^ 16 + (last_col - first_col) := by
    omega
  rw [h1, Nat.add_mod_left, Nat.mod_eq_of_lt (by omega),
    Nat.mod_eq_of_lt (by omega)]

/-- Witness for C10 at `first_col = 2`, `last_col = 5`. -/
theorem add_table_width_correct_witness :
    addTableRangeWidth 2 5 = 5 - 2 + 1 :=
  add_table_width_correct 2 5 (by decide) (by decide) (by decide)

/-- C1: whenever the given options carry a columns vector whose length
differs from the computed range width `last_col - first_col + 1`,
`Worksheet::add_table` returns the `NUMBER_OF_COLUMNS_IS_NOT_MATCHED`
(`ColumnCountMismatch`) error with the sheet state untouched, whatever
the native routine would do — so the native table routine is not
invoked and no sheet state is mutated by the failing call. -/
theorem add_table_column_mismatch_fails_first
    (native : SheetState → Nat → Nat → Nat → Nat →
      Option LxwTableOptions → Nat × SheetState)
    (s : SheetState) (first_row first_col last_row last_col : Nat)
    (opts : TableOptions) (cols : List TableColumn)
    (hcols : opts.columns = some cols)
    (hne : cols.length ≠ addTableRangeWidth first_col last_col) :
    Worksheet.add_table native s first_row first_col last_row last_col
      (some opts) =
      (s, .error (XlsxError.mk NUMBER_OF_COLUMNS_IS_NOT_MATCHED)) := by
  have hmis : tableColumnsMismatch first_col last_col (some opts) = true := by
    simp [tableColumnsMismatch, hcols, hne]
  unfold Worksheet.add_table
  rw [hmis]
  simp

/-- Witness for C1: one column over the two-column range 0..1. -/
theorem add_table_column_mismatch_fails_first_witness :
    Worksheet.add_table nativeTableAlwaysOk SheetState.empty 0 0 3 1
      (some tableOptionsOneColumn) =
      (SheetState.empty,
       .error (XlsxError.mk NUMBER_OF_COLUMNS_IS_NOT_MATCHED)) :=
  add_table_column_mismatch_fails_first nativeTableAlwaysOk
    SheetState.empty 0 0 3 1 tableOptionsOneColumn [sampleTableColumn]
    rfl (by decide)

/-- Translation of a native return code to the wrapper result: `Ok(())`
exactly for `LXW_NO_ERROR`, and otherwise `Err` carrying that code. -/
lemma code_translation_ok_iff (code : Nat) :
    ((if code = LXW_NO_ERROR then (Except.ok () : Except XlsxError Unit)
      else .error (XlsxError.new code)) = .ok () ↔ code = LXW_NO_ERROR) ∧
    (code ≠ LXW_NO_ERROR →
      (if code = LXW_NO_ERROR then (Except.ok () : Except XlsxError Unit)
       else .error (XlsxError.new code)) = .error (XlsxError.new code)) := by
  constructor
  · constructor
    · intro h
      by_contra hc
      rw [if_neg hc] at h
      cases h
    · intro h
      rw [if_pos h]
  · intro h
    rw [if_neg h]

/-- C2 counterexample: `Worksheet::add_table` called with a mismatched
columns vector returns the crate-level `ColumnCountMismatch` error —
which is not `XlsxError::new(LXW_NO_ERROR)` — although the native
routine (here one that always succeeds) would have returned
`LXW_NO_ERROR`; so it is not the case that every fallible operation
returns `Ok(())` exactly when the wrapped native call returns
`LXW_NO_ERROR`. -/
theorem worksheet_ops_pass_through_cex :
    (Worksheet.add_table nativeTableAlwaysOk SheetState.empty 0 0 3 1
      (some tableOptionsOneColumn)).2 =
      .error (XlsxError.mk NUMBER_OF_COLUMNS_IS_NOT_MATCHED) ∧
    XlsxError.mk NUMBER_OF_COLUMNS_IS_NOT_MATCHED ≠
      XlsxError.new LXW_NO_ERROR ∧
    (nativeTableAlwaysOk SheetState.empty 0 0 3 1
      (some tableOptionsOneColumn.into_lxw_table_options)).1 =
      LXW_NO_ERROR :=
  ⟨rfl, by decide, rfl⟩

/-- C2 (amended): every fallible (Result-returning) `Worksheet`
operation returns `Ok(())` exactly when the native call it forwards
to returns `LXW_NO_ERROR`, and otherwise returns
`Err(XlsxError::new(code))` carrying that native code — except
`Worksheet::add_table`, which satisfies this only when its Rust-side
column-count pre-check passes (when the pre-check fires it fails
with the crate-level `ColumnCountMismatch` error before any native
call, as the counterexample shows).  All 43 Result-returning
methods of `worksheet.rs` are covered, `add_table` first. -/
theorem worksheet_ops_pass_through_native_code :
    (∀ native s first_row first_col last_row last_col
        (options : Option TableOptions),
      tableColumnsMismatch first_col last_col options = false →
      passThroughPair
        (Worksheet.add_table native s first_row first_col last_row
          last_col options).2
        (native s first_row first_col last_row last_col
          (options.map TableOptions.into_lxw_table_options)).1) ∧
    (∀ native (s : SheetState) (row col : Nat) (text : RStr),
      passThroughPair
        (Worksheet.write_comment native s row col text).2
        (native s row col (text ++ [0])).1) ∧
    (∀ native (s : SheetState) (row col : Nat) (text : RStr) (options : CommentOptions),
      passThroughPair
        (Worksheet.write_comment_opt native s row col text options).2
        (native s row col (text ++ [0]) options).1) ∧
    (∀ native (s : SheetState) (row col : Nat) (number : F64) (format : Option Format),
      passThroughPair
        (Worksheet.write_number native s row col number format).2
        (native s row col number (formatPtrOrNull format)).1) ∧
    (∀ native (s : SheetState) (row col : Nat) (text : RStr) (format : Option Format),
      passThroughPair
        (Worksheet.write_string native s row col text format).2
        (native s row col (text ++ [0]) (formatPtrOrNull format)).1) ∧
    (∀ native (s : SheetState) (row col : Nat) (formula : RStr) (format : Option Format),
      passThroughPair
        (Worksheet.write_formula native s row col formula format).2
        (native s row col (formula ++ [0]) (formatPtrOrNull format)).1) ∧
    (∀ native (s : SheetState) (first_row first_col last_row last_col : Nat) (formula : RStr) (format : Option Format),
      passThroughPair
        (Worksheet.write_array_formula native s first_row first_col last_row last_col formula format).2
        (native s first_row first_col last_row last_col (formula ++ [0]) (formatPtrOrNull format)).1) ∧
    (∀ native (s : SheetState) (row col : Nat) (datetime : DateTime) (format : Option Format),
      passThroughPair
        (Worksheet.write_datetime native s row col datetime format).2
        (native s row col datetime.toLxw (formatPtrOrNull format)).1) ∧
    (∀ native (s : SheetState) (row col : Nat) (url : RStr) (format : Option Format),
      passThroughPair
        (Worksheet.write_url native s row col url format).2
        (native s row col (url ++ [0]) (formatPtrOrNull format)).1) ∧
    (∀ native (s : SheetState) (row col : Nat) (value : Bool) (format : Option Format),
      passThroughPair
        (Worksheet.write_boolean native s row col value format).2
        (native s row col (if value then 1 else 0) (formatPtrOrNull format)).1) ∧
    (∀ native (s : SheetState) (row col : Nat) (format : Option Format),
      passThroughPair
        (Worksheet.write_blank native s row col format).2
        (native s row col (formatPtrOrNull format)).1) ∧
    (∀ native (s : SheetState) (row col : Nat) (formula : RStr) (format : Option Format) (number : F64),
      passThroughPair
        (Worksheet.write_formula_num native s row col formula format number).2
        (native s row col (formula ++ [0]) (formatPtrOrNull format) number).1) ∧
    (∀ native (s : SheetState) (row col : Nat) (formula : RStr) (format : Option Format) (result : RStr),
      passThroughPair
        (Worksheet.write_formula_str native s row col formula format result).2
        (native s row col (formula ++ [0]) (formatPtrOrNull format) (result ++ [0])).1) ∧
    (∀ native (s : SheetState) (row col : Nat) (text : List (RStr × Option Format)) (format : Option Format),
      passThroughPair
        (Worksheet.write_rich_string native s row col text format).2
        (native s row col (richStringArray text) (formatPtrOrNull format)).1) ∧
    (∀ native (s : SheetState) (row : Nat) (height : F64) (format : Option Format),
      passThroughPair
        (Worksheet.set_row native s row height format).2
        (native s row height (formatPtrOrNull format)).1) ∧
    (∀ native (s : SheetState) (row : Nat) (height : F64) (format : Option Format) (options : RowColOptions),
      passThroughPair
        (Worksheet.set_row_opt native s row height format options).2
        (native s row height (formatPtrOrNull format) options).1) ∧
    (∀ native (s : SheetState) (row pixels : Nat) (format : Option Format),
      passThroughPair
        (Worksheet.set_row_pixels native s row pixels format).2
        (native s row pixels (formatPtrOrNull format)).1) ∧
    (∀ native (s : SheetState) (row pixels : Nat) (format : Option Format) (options : RowColOptions),
      passThroughPair
        (Worksheet.set_row_pixels_opt native s row pixels format options).2
        (native s row pixels (formatPtrOrNull format) options).1) ∧
    (∀ native (s : SheetState) (first_col last_col : Nat) (width : F64) (format : Option Format),
      passThroughPair
        (Worksheet.set_column native s first_col last_col width format).2
        (native s first_col last_col width (formatPtrOrNull format)).1) ∧
    (∀ native (s : SheetState) (first_col last_col : Nat) (width : F64) (format : Option Format) (options : RowColOptions),
      passThroughPair
        (Worksheet.set_column_opt native s first_col last_col width format options).2
        (native s first_col last_col width (formatPtrOrNull format) options).1) ∧
    (∀ native (s : SheetState) (first_col last_col pixels : Nat) (format : Option Format),
      passThroughPair
        (Worksheet.set_column_pixels native s first_col last_col pixels format).2
        (native s first_col last_col pixels (formatPtrOrNull format)).1) ∧
    (∀ native (s : SheetState) (first_col last_col pixels : Nat) (format : Option Format) (options : RowColOptions),
      passThroughPair
        (Worksheet.set_column_pixels_opt native s first_col last_col pixels format options).2
        (native s first_col last_col pixels (formatPtrOrNull format) options).1) ∧
    (∀ native (s : SheetState) (row col : Nat) (filename : RStr),
      passThroughPair
        (Worksheet.insert_image native s row col filename).2
        (native s row col (filename ++ [0])).1) ∧
    (∀ native (s : SheetState) (row col : Nat) (filename : RStr) (opt : ImageOptions),
      passThroughPair
        (Worksheet.insert_image_opt native s row col filename opt).2
        (native s row col (filename ++ [0]) opt.toLxw).1) ∧
    (∀ native (s : SheetState) (row col : Nat) (buffer : List UInt8),
      passThroughPair
        (Worksheet.insert_image_buffer native s row col buffer).2
        (native s row col buffer buffer.length).1) ∧
    (∀ native (s : SheetState) (row col : Nat) (buffer : List UInt8) (opt : ImageOptions),
      passThroughPair
        (Worksheet.insert_image_buffer_opt native s row col buffer opt).2
        (native s row col buffer buffer.length opt.toLxw).1) ∧
    (∀ native (s : SheetState) (row column : Nat) (chart : Chart),
      passThroughPair
        (Worksheet.insert_chart native s row column chart).2
        (native s row column chart.chart).1) ∧
    (∀ native (s : SheetState) (first_row first_col last_row last_col : Nat) (string : RStr) (format : Option Format),
      passThroughPair
        (Worksheet.merge_range native s first_row first_col last_row last_col string format).2
        (native s first_row first_col last_row last_col (string ++ [0]) (formatPtrOrNull format)).1) ∧
    (∀ native (s : SheetState) (first_row first_col last_row last_col : Nat),
      passThroughPair
        (Worksheet.autofilter native s first_row first_col last_row last_col).2
        (native s first_row first_col last_row last_col).1) ∧
    (∀ native (s : SheetState) (row col : Nat) (validation : DataValidation),
      passThroughPair
        (Worksheet.data_validation_cell native s row col validation).2
        (native s row col validation.to_c_struct).1) ∧
    (∀ native (s : SheetState) (first_row first_col last_row last_col : Nat) (validation : DataValidation),
      passThroughPair
        (Worksheet.data_validation_range native s first_row first_col last_row last_col validation).2
        (native s first_row first_col last_row last_col validation.to_c_struct).1) ∧
    (∀ native (s : SheetState) (header : RStr),
      passThroughPair
        (Worksheet.set_header native s header).2
        (native s (header ++ [0])).1) ∧
    (∀ native (s : SheetState) (footer : RStr),
      passThroughPair
        (Worksheet.set_footer native s footer).2
        (native s (footer ++ [0])).1) ∧
    (∀ native (s : SheetState) (header : RStr) (options : HeaderFooterOptions),
      passThroughPair
        (Worksheet.set_header_opt native s header options).2
        (native s (header ++ [0]) options.toLxw).1) ∧
    (∀ native (s : SheetState) (footer : RStr) (options : HeaderFooterOptions),
      passThroughPair
        (Worksheet.set_footer_opt native s footer options).2
        (native s (footer ++ [0]) options.toLxw).1) ∧
    (∀ native (s : SheetState) (breaks : List Nat),
      passThroughPair
        (Worksheet.set_h_pagebreaks native s breaks).2
        (native s (breaks ++ [0])).1) ∧
    (∀ native (s : SheetState) (breaks : List Nat),
      passThroughPair
        (Worksheet.set_v_pagebreaks native s breaks).2
        (native s (breaks ++ [0])).1) ∧
    (∀ native (s : SheetState) (first_row last_row : Nat),
      passThroughPair
        (Worksheet.repeat_rows native s first_row last_row).2
        (native s first_row last_row).1) ∧
    (∀ native (s : SheetState) (first_col last_col : Nat),
      passThroughPair
        (Worksheet.repeat_columns native s first_col last_col).2
        (native s first_col last_col).1) ∧
    (∀ native (s : SheetState) (first_row first_col last_row last_col : Nat),
      passThroughPair
        (Worksheet.print_area native s first_row first_col last_row last_col).2
        (native s first_row first_col last_row last_col).1) ∧
    (∀ native (s : SheetState) (name : RStr),
      passThroughPair
        (Worksheet.set_vba_name native s name).2
        (native s (name ++ [0])).1) ∧
    (∀ native (s : SheetState) (row col : Nat) (format : ConditionalFormat),
      passThroughPair
        (Worksheet.conditional_format_cell native s row col format).2
        (native s row col format._internal_format).1) ∧
    (∀ native (s : SheetState) (first_row first_col last_row last_col : Nat) (format : ConditionalFormat),
      passThroughPair
        (Worksheet.conditional_format_range native s first_row first_col last_row last_col format).2
        (native s first_row first_col last_row last_col format._internal_format).1) := by
  refine ⟨?_, ?_, ?_, ?_, ?_, ?_, ?_, ?_, ?_, ?_, ?_, ?_, ?_, ?_, ?_, ?_, ?_, ?_, ?_, ?_, ?_, ?_, ?_, ?_, ?_, ?_, ?_, ?_, ?_, ?_, ?_, ?_, ?_, ?_, ?_, ?_, ?_, ?_, ?_, ?_, ?_, ?_, ?_⟩
  · intro native s fr fc lr lc options hpre
    have heq : (Worksheet.add_table native s fr fc lr lc options).2 =
        (if (native s fr fc lr lc
              (options.map TableOptions.into_lxw_table_options)).1 =
            LXW_NO_ERROR then (Except.ok () : Except XlsxError Unit)
         else .error (XlsxError.new (native s fr fc lr lc
           (options.map TableOptions.into_lxw_table_options)).1)) := by
      unfold Worksheet.add_table
      rw [hpre]
      simp
    rw [heq]
    exact code_translation_ok_iff _
  · exact fun native s row col text =>
      code_translation_ok_iff (native s row col (text ++ [0])).1
  · exact fun native s row col text options =>
      code_translation_ok_iff (native s row col (text ++ [0]) options).1
  · exact fun native s row col number format =>
      code_translation_ok_iff (native s row col number (formatPtrOrNull format)).1
  · exact fun native s row col text format =>
      code_translation_ok_iff (native s row col (text ++ [0]) (formatPtrOrNull format)).1
  · exact fun native s row col formula format =>
      code_translation_ok_iff (native s row col (formula ++ [0]) (formatPtrOrNull format)).1
  · exact fun native s first_row first_col last_row last_col formula format =>
      code_translation_ok_iff (native s first_row first_col last_row last_col (formula ++ [0]) (formatPtrOrNull format)).1
  · exact fun native s row col datetime format =>
      code_translation_ok_iff (native s row col datetime.toLxw (formatPtrOrNull format)).1
  · exact fun native s row col url format =>
      code_translation_ok_iff (native s row col (url ++ [0]) (formatPtrOrNull format)).1
  · exact fun native s row col value format =>
      code_translation_ok_iff (native s row col (if value then 1 else 0) (formatPtrOrNull format)).1
  · exact fun native s row col format =>
      code_translation_ok_iff (native s row col (formatPtrOrNull format)).1
  · exact fun native s row col formula format number =>
      code_translation_ok_iff (native s row col (formula ++ [0]) (formatPtrOrNull format) number).1
  · exact fun native s row col formula format result =>
      code_translation_ok_iff (native s row col (formula ++ [0]) (formatPtrOrNull format) (result ++ [0])).1
  · exact fun native s row col text format =>
      code_translation_ok_iff (native s row col (richStringArray text) (formatPtrOrNull format)).1
  · exact fun native s row height format =>
      code_translation_ok_iff (native s row height (formatPtrOrNull format)).1
  · exact fun native s row height format options =>
      code_translation_ok_iff (native s row height (formatPtrOrNull format) options).1
  · exact fun native s row pixels format =>
      code_translation_ok_iff (native s row pixels (formatPtrOrNull format)).1
  · exact fun native s row pixels format options =>
      code_translation_ok_iff (native s row pixels (formatPtrOrNull format) options).1
  · exact fun native s first_col last_col width format =>
      code_translation_ok_iff (native s first_col last_col width (formatPtrOrNull format)).1
  · exact fun native s first_col last_col width format options =>
      code_translation_ok_iff (native s first_col last_col width (formatPtrOrNull format) options).1
  · exact fun native s first_col last_col pixels format =>
      code_translation_ok_iff (native s first_col last_col pixels (formatPtrOrNull format)).1
  · exact fun native s first_col last_col pixels format options =>
      code_translation_ok_iff (native s first_col last_col pixels (formatPtrOrNull format) options).1
  · exact fun native s row col filename =>
      code_translation_ok_iff (native s row col (filename ++ [0])).1
  · exact fun native s row col filename opt =>
      code_translation_ok_iff (native s row col (filename ++ [0]) opt.toLxw).1
  · exact fun native s row col buffer =>
      code_translation_ok_iff (native s row col buffer buffer.length).1
  · exact fun native s row col buffer opt =>
      code_translation_ok_iff (native s row col buffer buffer.length opt.toLxw).1
  · exact fun native s row column chart =>
      code_translation_ok_iff (native s row column chart.chart).1
  · exact fun native s first_row first_col last_row last_col string format =>
      code_translation_ok_iff (native s first_row first_col last_row last_col (string ++ [0]) (formatPtrOrNull format)).1
  · exact fun native s first_row first_col last_row last_col =>
      code_translation_ok_iff (native s first_row first_col last_row last_col).1
  · exact fun native s row col validation =>
      code_translation_ok_iff (native s row col validation.to_c_struct).1
  · exact fun native s first_row first_col last_row last_col validation =>
      code_translation_ok_iff (native s first_row first_col last_row last_col validation.to_c_struct).1
  · exact fun native s header =>
      code_translation_ok_iff (native s (header ++ [0])).1
  · exact fun native s footer =>
      code_translation_ok_iff (native s (footer ++ [0])).1
  · exact fun native s header options =>
      code_translation_ok_iff (native s (header ++ [0]) options.toLxw).1
  · exact fun native s footer options =>
      code_translation_ok_iff (native s (footer ++ [0]) options.toLxw).1
  · exact fun native s breaks =>
      code_translation_ok_iff (native s (breaks ++ [0])).1
  · exact fun native s breaks =>
      code_translation_ok_iff (native s (breaks ++ [0])).1
  · exact fun native s first_row last_row =>
      code_translation_ok_iff (native s first_row last_row).1
  · exact fun native s first_col last_col =>
      code_translation_ok_iff (native s first_col last_col).1
  · exact fun native s first_row first_col last_row last_col =>
      code_translation_ok_iff (native s first_row first_col last_row last_col).1
  · exact fun native s name =>
      code_translation_ok_iff (native s (name ++ [0])).1
  · exact fun native s row col format =>
      code_translation_ok_iff (native s row col format._internal_format).1
  · exact fun native s first_row first_col last_row last_col format =>
      code_translation_ok_iff (native s first_row first_col last_row last_col format._internal_format).1

/-- Witness for C2: an `add_table` call whose pre-check passes (no
options at all) with an always-succeeding native routine returns
`Ok(())`. -/
theorem worksheet_ops_pass_through_native_code_witness :
    (Worksheet.add_table nativeTableAlwaysOk SheetState.empty 0 0 3 1
      none).2 = .ok () :=
  ((worksheet_ops_pass_through_native_code.1
    nativeTableAlwaysOk SheetState.empty 0 0 3 1 none (by decide)).1).mpr
    rfl
/-! ### Claims about conditional-formatting rule construction -/

/-- A `Formula`-typed conditional format with no formula text at all:
`new` leaves `value_string` null and the builder accepts the type
change without demanding the text. -/
def invalidFormulaRule : ConditionalFormat :=
  (ConditionalFormat.new ⟨1⟩).set_conditional_type .Formula

/-- C3 counterexample: the builder of `conditional_formatting.rs`
accepts (produces) a `Formula` rule whose formula text is missing: the
value is reachable through the public constructor and setters — none of
which can fail, the API has no error outcome — yet it violates the
spec's construction-time validity requirements, so rules are not
validated at construction time and no `InvalidRule` failure exists. -/
theorem conditional_rule_validation_cex :
    Reachable invalidFormulaRule ∧ specRuleValid invalidFormulaRule = false :=
  ⟨.set_conditional_type _ (.new _), by decide⟩

/-- C3 (amended): the builder performs no construction-time validation:
every combination of rule type, criteria, bound and operand — including
ones the spec calls invalid — is accepted, because every setter is a
total function and the API provides no failure channel. -/
theorem conditional_rule_builder_total (f : Format) (ty : ConditionalType)
    (cr : ConditionalCriteria) (v : F64) (sv : Option RStr) :
    Reachable (((((ConditionalFormat.new f).set_conditional_type
      ty).set_criteria cr).set_value v).set_value_string sv) :=
  .set_value_string _ (.set_value _ (.set_criteria _
    (.set_conditional_type _ (.new f))))

/-! ### Claims about cell writes (modelled native engine) -/

/-- C4: for every in-range cell address, writing a non-finite number
(NaN or an infinity) fails with the `InvalidNumber` error and leaves
the sheet state — in particular the cell grid — unchanged, so a
subsequent serialization emits no record for a cell that was untouched
before the failing call. -/
theorem write_number_nonfinite_invalid_number
    (s : SheetState) (row col : Nat) (number : F64)
    (format : Option Format)
    (hdim : checkDimensions row col = true)
    (hfin : number.isFinite = false) :
    Worksheet.write_number nativeWriteNumber s row col number format =
      (s, .error (XlsxError.new LXW_ERROR_INVALID_NUMBER)) ∧
    ((row, col) ∉ s.serializedAddrs →
      (row, col) ∉ (Worksheet.write_number nativeWriteNumber s row col
        number format).1.serializedAddrs) := by
  have hnat : nativeWriteNumber s row col number (formatPtrOrNull format) =
      (LXW_ERROR_INVALID_NUMBER, s) := by
    unfold nativeWriteNumber nativeSetCell
    rw [hdim, hfin]
    simp
  have hmain : Worksheet.write_number nativeWriteNumber s row col number
      format = (s, .error (XlsxError.new LXW_ERROR_INVALID_NUMBER)) := by
    unfold Worksheet.write_number
    rw [hnat]
    simp [LXW_ERROR_INVALID_NUMBER, LXW_NO_ERROR]
  refine ⟨hmain, fun hnot => ?_⟩
  rw [hmain]
  exact hnot

/-- Witness for C4 at the in-range address (0, 0) with NaN. -/
theorem write_number_nonfinite_invalid_number_witness :
    Worksheet.write_number nativeWriteNumber SheetState.empty 0 0 .nan
      none =
      (SheetState.empty, .error (XlsxError.new LXW_ERROR_INVALID_NUMBER)) :=
  (write_number_nonfinite_invalid_number SheetState.empty 0 0 .nan none
    (by decide) (by decide)).1

/-- C5: for the cell-writing operations, an address whose row exceeds
1,048,575 or whose column exceeds 16,383 fails with the `OutOfRange`
error (sheet state untouched), every address within those bounds passes
the extent check, and — the types `u32` / `u16` admitting larger values
than the limits — the check is behavioral: both 1,048,576 and 16,384
are representable yet rejected. -/
theorem cell_write_out_of_range
    (s : SheetState) (row col : Nat) (text : RStr) (number : F64)
    (format : Option Format)
    (hrow : row < 2 ^ 32) (hcol : col < 2 ^ 16) :
    ((1048575 < row ∨ 16383 < col) →
      Worksheet.write_number nativeWriteNumber s row col number format =
        (s, .error (XlsxError.new LXW_ERROR_OUT_OF_RANGE)) ∧
      Worksheet.write_string nativeWriteString s row col text format =
        (s, .error (XlsxError.new LXW_ERROR_OUT_OF_RANGE))) ∧
    (row ≤ 1048575 → col ≤ 16383 → checkDimensions row col = true) ∧
    ((1048576 : Nat) < 2 ^ 32 ∧ (16384 : Nat) < 2 ^ 16 ∧
      checkDimensions 1048576 0 = false ∧
      checkDimensions 0 16384 = false) := by
  refine ⟨fun hout => ?_, fun h1 h2 => ?_, by decide⟩
  · have hdim : checkDimensions row col = false := by
      unfold checkDimensions
      rcases hout with h | h
      · have : ¬(row ≤ 1048575) := by omega
        simp [this]
      · have : ¬(col ≤ 16383) := by omega
        simp [this]
    constructor
    · unfold Worksheet.write_number nativeWriteNumber nativeSetCell
      rw [hdim]
      simp [LXW_ERROR_OUT_OF_RANGE, LXW_NO_ERROR]
    · unfold Worksheet.write_string nativeWriteString nativeSetCell
      rw [hdim]
      simp [LXW_ERROR_OUT_OF_RANGE, LXW_NO_ERROR]
  · unfold checkDimensions
    simp [h1, h2]

/-- Witness for C5 at row 2,000,000 (representable in `u32`, beyond the
row limit), column 0. -/
theorem cell_write_out_of_range_witness :
    Worksheet.write_number nativeWriteNumber SheetState.empty 2000000 0
      (.finite 1) none =
      (SheetState.empty, .error (XlsxError.new LXW_ERROR_OUT_OF_RANGE)) :=
  ((cell_write_out_of_range SheetState.empty 2000000 0 [] (.finite 1)
    none (by decide) (by decide)).1 (by decide)).1

/-- C6: a successful `merge_range(r1,c1,r2,c2,value,format)` writes the
value into the top-left cell and marks every other cell of the
rectangle as covered; a subsequent independent write to any covered
cell fails with `OverlappingMerge` leaving the state untouched; and a
merge whose rectangle overlaps the recorded merge also fails with
`OverlappingMerge` leaving the state untouched. -/
theorem merge_range_semantics
    (s : SheetState) (r1 c1 r2 c2 : Nat) (string : RStr)
    (format : Option Format)
    (hd1 : checkDimensions r1 c1 = true)
    (hd2 : checkDimensions r2 c2 = true)
    (hov : s.merges.any (fun m => m.overlaps ⟨r1, c1, r2, c2⟩) = false) :
    (Worksheet.merge_range nativeMergeRange s r1 c1 r2 c2 string
      format).2 = .ok () ∧
    (Worksheet.merge_range nativeMergeRange s r1 c1 r2 c2 string
      format).1.cellAt r1 c1 = some (.string (string ++ [0])) ∧
    (∀ r c, (MergedRange.mk r1 c1 r2 c2).contains r c = true →
      ¬(r = r1 ∧ c = c1) →
      (Worksheet.merge_range nativeMergeRange s r1 c1 r2 c2 string
        format).1.covered r c = true) ∧
    (∀ r c (text2 : RStr) (format2 : Option Format),
      checkDimensions r c = true →
      (Worksheet.merge_range nativeMergeRange s r1 c1 r2 c2 string
        format).1.covered r c = true →
      Worksheet.write_string nativeWriteString
        (Worksheet.merge_range nativeMergeRange s r1 c1 r2 c2 string
          format).1 r c text2 format2 =
        ((Worksheet.merge_range nativeMergeRange s r1 c1 r2 c2 string
          format).1,
         .error (XlsxError.new LXW_ERROR_OVERLAPPING_MERGE))) ∧
    (∀ r1' c1' r2' c2' (string2 : RStr) (format2 : Option Format),
      checkDimensions r1' c1' = true → checkDimensions r2' c2' = true →
      (MergedRange.mk r1 c1 r2 c2).overlaps ⟨r1', c1', r2', c2'⟩ = true →
      Worksheet.merge_range nativeMergeRange
        (Worksheet.merge_range nativeMergeRange s r1 c1 r2 c2 string
          format).1 r1' c1' r2' c2' string2 format2 =
        ((Worksheet.merge_range nativeMergeRange s r1 c1 r2 c2 string
          format).1,
         .error (XlsxError.new LXW_ERROR_OVERLAPPING_MERGE))) := by
  have hnat : nativeMergeRange s r1 c1 r2 c2 (string ++ [0])
      (formatPtrOrNull format) =
      (LXW_NO_ERROR,
       { cells := ((r1, c1), .string (string ++ [0])) :: s.cells
         merges := ⟨r1, c1, r2, c2⟩ :: s.merges }) := by
    unfold nativeMergeRange
    simp [hd1, hd2, hov]
  have hres : Worksheet.merge_range nativeMergeRange s r1 c1 r2 c2
      string format =
      ({ cells := ((r1, c1), .string (string ++ [0])) :: s.cells
         merges := ⟨r1, c1, r2, c2⟩ :: s.merges }, .ok ()) := by
    unfold Worksheet.merge_range
    rw [hnat]
    simp [LXW_NO_ERROR]
  refine ⟨?_, ?_, ?_, ?_, ?_⟩
  · rw [hres]
  · rw [hres]
    simp [SheetState.cellAt, List.lookup]
  · intro r c hin hne
    rw [hres]
    unfold SheetState.covered
    rw [List.any_cons]
    have hanchor : (!(decide (r = r1) && decide (c = c1))) = true := by
      rcases not_and_or.mp hne with h | h <;> simp [h]
    simp only []
    rw [hin, hanchor]
    simp
  · intro r c text2 format2 hdimrc hcov
    rw [hres] at hcov ⊢
    unfold Worksheet.write_string nativeWriteString nativeSetCell
    rw [hdimrc, hcov]
    simp [LXW_ERROR_OVERLAPPING_MERGE, LXW_NO_ERROR]
  · intro r1' c1' r2' c2' string2 format2 hd1' hd2' hovl
    rw [hres]
    unfold Worksheet.merge_range nativeMergeRange
    simp [hd1', hd2', hovl, LXW_ERROR_OVERLAPPING_MERGE, LXW_NO_ERROR]

/-- Witness for C6: merge (1,1)-(2,2) on the empty sheet, then attempt
an independent write to the covered cell (1,2). -/
theorem merge_range_semantics_witness :
    (Worksheet.merge_range nativeMergeRange SheetState.empty 1 1 2 2
      [77] none).2 = .ok () ∧
    Worksheet.write_string nativeWriteString
      (Worksheet.merge_range nativeMergeRange SheetState.empty 1 1 2 2
        [77] none).1 1 2 [65] none =
      ((Worksheet.merge_range nativeMergeRange SheetState.empty 1 1 2 2
        [77] none).1,
       .error (XlsxError.new LXW_ERROR_OVERLAPPING_MERGE)) := by
  have h := merge_range_semantics SheetState.empty 1 1 2 2 [77] none
    (by decide) (by decide) (by decide)
  exact ⟨h.1, h.2.2.2.1 1 2 [65] none (by decide)
    (h.2.2.1 1 2 (by decide) (by decide))⟩

/-- C7: each enum of the duplicate module `conditionnal_formatting.rs`
declares exactly the same variant set, in the same declaration order,
as the corresponding enum of `conditional_formatting.rs`: the
name-preserving renaming maps the variant list of the one onto the
variant list of the other position by position, the lists are complete
and duplicate-free, and the renamings are bijections.  (The duplicate
module's `ConditionnalFormat` carries no operations; its `impl` block
is empty.) -/
theorem conditionnal_module_enums_duplicate_conditional :
    (conditionnalTypeVariants.map ConditionnalType.rename =
      conditionalTypeVariants ∧
     (∀ x : ConditionnalType, x ∈ conditionnalTypeVariants) ∧
     (∀ x : ConditionalType, x ∈ conditionalTypeVariants) ∧
     conditionnalTypeVariants.Nodup ∧ conditionalTypeVariants.Nodup ∧
     Function.Bijective ConditionnalType.rename) ∧
    (conditionnalCriteriaVariants.map ConditionnalCriteria.rename =
      conditionalCriteriaVariants ∧
     (∀ x : ConditionnalCriteria, x ∈ conditionnalCriteriaVariants) ∧
     (∀ x : ConditionalCriteria, x ∈ conditionalCriteriaVariants) ∧
     conditionnalCriteriaVariants.Nodup ∧
     conditionalCriteriaVariants.Nodup ∧
     Function.Bijective ConditionnalCriteria.rename) ∧
    (conditionnalRuleTypeVariants.map ConditionnalRuleType.rename =
      conditionalRuleTypeVariants ∧
     (∀ x : ConditionnalRuleType, x ∈ conditionnalRuleTypeVariants) ∧
     (∀ x : ConditionalRuleType, x ∈ conditionalRuleTypeVariants) ∧
     conditionnalRuleTypeVariants.Nodup ∧
     conditionalRuleTypeVariants.Nodup ∧
     Function.Bijective ConditionnalRuleType.rename) ∧
    (conditionnalBarDirectionVariants.map ConditionnalBarDirection.rename =
      conditionalBarDirectionVariants ∧
     (∀ x : ConditionnalBarDirection,
        x ∈ conditionnalBarDirectionVariants) ∧
     (∀ x : ConditionalBarDirection, x ∈ conditionalBarDirectionVariants) ∧
     conditionnalBarDirectionVariants.Nodup ∧
     conditionalBarDirectionVariants.Nodup ∧
     Function.Bijective ConditionnalBarDirection.rename) ∧
    (conditionnalBarAxisPositionVariants.map
        ConditionnalBarAxisPosition.rename =
      conditionalBarAxisPositionVariants ∧
     (∀ x : ConditionnalBarAxisPosition,
        x ∈ conditionnalBarAxisPositionVariants) ∧
     (∀ x : ConditionalBarAxisPosition,
        x ∈ conditionalBarAxisPositionVariants) ∧
     conditionnalBarAxisPositionVariants.Nodup ∧
     conditionalBarAxisPositionVariants.Nodup ∧
     Function.Bijective ConditionnalBarAxisPosition.rename) ∧
    (conditionnalIconTypeVariants.map ConditionnalIconType.rename =
      conditionalIconTypeVariants ∧
     (∀ x : ConditionnalIconType, x ∈ conditionnalIconTypeVariants) ∧
     (∀ x : ConditionalIconType, x ∈ conditionalIconTypeVariants) ∧
     conditionnalIconTypeVariants.Nodup ∧
     conditionalIconTypeVariants.Nodup ∧
     Function.Bijective ConditionnalIconType.rename) := by
  refine ⟨⟨?_, ?_, ?_, ?_, ?_, ?_⟩, ⟨?_, ?_, ?_, ?_, ?_, ?_⟩,
    ⟨?_, ?_, ?_, ?_, ?_, ?_⟩, ⟨?_, ?_, ?_, ?_, ?_, ?_⟩,
    ⟨?_, ?_, ?_, ?_, ?_, ?_⟩, ⟨?_, ?_, ?_, ?_, ?_, ?_⟩⟩ <;> decide

/-- C8: every builder setter of `ConditionalFormat` returns the input
with only the field it names changed (the structure-update form on the
right states all other fields of both the C struct and the Rust struct
unchanged); only `set_value_string` additionally stores an owned
NUL-terminated copy of its argument in `string_value` (pointing the C
field at that buffer), while `set_min_value_string`,
`set_mid_value_string`, `set_max_value_string` and `set_multi_range`
leave `string_value` unchanged and retain no owned copy — they only
store the pointer of a temporary buffer in the C field. -/
theorem conditional_format_setters_frame :
    (∀ cf v, ConditionalFormat.set_conditional_type cf v =
      { cf with _internal_format :=
          { cf._internal_format with type_ := v.value } }) ∧
    (∀ cf v, ConditionalFormat.set_criteria cf v =
      { cf with _internal_format :=
          { cf._internal_format with criteria := v.value } }) ∧
    (∀ cf v, ConditionalFormat.set_value cf v =
      { cf with _internal_format :=
          { cf._internal_format with value := v } }) ∧
    (∀ cf v, ConditionalFormat.set_value_string cf v =
      { _internal_format :=
          { cf._internal_format with
              value_string := bytesPtrOrNull (option_str_to_cstr_bytes v) }
        string_value := option_str_to_cstr_bytes v }) ∧
    (∀ cf v, (ConditionalFormat.set_value_string cf v).string_value =
      option_str_to_cstr_bytes v) ∧
    (∀ cf v, ConditionalFormat.set_format cf v =
      { cf with _internal_format :=
          { cf._internal_format with format := .mk v.format } }) ∧
    (∀ cf v, ConditionalFormat.set_min_value cf v =
      { cf with _internal_format :=
          { cf._internal_format with min_value := v } }) ∧
    (∀ cf v, ConditionalFormat.set_min_value_string cf v =
      { cf with _internal_format :=
          { cf._internal_format with
              min_value_string :=
                bytesPtrOrNull (option_str_to_cstr_bytes v) } }) ∧
    (∀ cf v, (ConditionalFormat.set_min_value_string cf v).string_value =
      cf.string_value) ∧
    (∀ cf v, ConditionalFormat.set_min_rule_type cf v =
      { cf with _internal_format :=
          { cf._internal_format with min_rule_type := v.value } }) ∧
    (∀ cf v, ConditionalFormat.set_min_color cf v =
      { cf with _internal_format :=
          { cf._internal_format with min_color := v.value } }) ∧
    (∀ cf v, ConditionalFormat.set_mid_value cf v =
      { cf with _internal_format :=
          { cf._internal_format with mid_value := v } }) ∧
    (∀ cf v, ConditionalFormat.set_mid_value_string cf v =
      { cf with _internal_format :=
          { cf._internal_format with
              mid_value_string :=
                bytesPtrOrNull (option_str_to_cstr_bytes v) } }) ∧
    (∀ cf v, (ConditionalFormat.set_mid_value_string cf v).string_value =
      cf.string_value) ∧
    (∀ cf v, ConditionalFormat.set_mid_rule_type cf v =
      { cf with _internal_format :=
          { cf._internal_format with mid_rule_type := v.value } }) ∧
    (∀ cf v, ConditionalFormat.set_mid_color cf v =
      { cf with _internal_format :=
          { cf._internal_format with mid_color := v.value } }) ∧
    (∀ cf v, ConditionalFormat.set_max_value cf v =
      { cf with _internal_format :=
          { cf._internal_format with max_value := v } }) ∧
    (∀ cf v, ConditionalFormat.set_max_value_string cf v =
      { cf with _internal_format :=
          { cf._internal_format with
              max_value_string :=
                bytesPtrOrNull (option_str_to_cstr_bytes v) } }) ∧
    (∀ cf v, (ConditionalFormat.set_max_value_string cf v).string_value =
      cf.string_value) ∧
    (∀ cf v, ConditionalFormat.set_max_rule_type cf v =
      { cf with _internal_format :=
          { cf._internal_format with max_rule_type := v.value } }) ∧
    (∀ cf v, ConditionalFormat.set_max_color cf v =
      { cf with _internal_format :=
          { cf._internal_format with max_color := v.value } }) ∧
    (∀ cf v, ConditionalFormat.set_bar_color cf v =
      { cf with _internal_format :=
          { cf._internal_format with bar_color := v.value } }) ∧
    (∀ cf v, ConditionalFormat.set_bar_only cf v =
      { cf with _internal_format :=
          { cf._internal_format with bar_only := convert_bool v } }) ∧
    (∀ cf v, ConditionalFormat.set_data_bar_2010 cf v =
      { cf with _internal_format :=
          { cf._internal_format with data_bar_2010 := convert_bool v } }) ∧
    (∀ cf v, ConditionalFormat.set_bar_solid cf v =
      { cf with _internal_format :=
          { cf._internal_format with bar_solid := convert_bool v } }) ∧
    (∀ cf v, ConditionalFormat.set_bar_negative_color cf v =
      { cf with _internal_format :=
          { cf._internal_format with bar_negative_color := v.value } }) ∧
    (∀ cf v, ConditionalFormat.set_bar_border_color cf v =
      { cf with _internal_format :=
          { cf._internal_format with bar_border_color := v.value } }) ∧
    (∀ cf v, ConditionalFormat.set_bar_negative_border_color cf v =
      { cf with _internal_format :=
          { cf._internal_format with
              bar_negative_border_color := v.value } }) ∧
    (∀ cf v, ConditionalFormat.set_bar_negative_color_same cf v =
      { cf with _internal_format :=
          { cf._internal_format with
              bar_negative_color_same := convert_bool v } }) ∧
    (∀ cf v, ConditionalFormat.set_bar_negative_border_color_same cf v =
      { cf with _internal_format :=
          { cf._internal_format with
              bar_negative_border_color_same := convert_bool v } }) ∧
    (∀ cf v, ConditionalFormat.set_bar_no_border cf v =
      { cf with _internal_format :=
          { cf._internal_format with bar_no_border := convert_bool v } }) ∧
    (∀ cf v, ConditionalFormat.set_bar_direction cf v =
      { cf with _internal_format :=
          { cf._internal_format with bar_direction := v.value } }) ∧
    (∀ cf v, ConditionalFormat.set_bar_axis_position cf v =
      { cf with _internal_format :=
          { cf._internal_format with bar_axis_position := v.value } }) ∧
    (∀ cf v, ConditionalFormat.set_bar_axis_color cf v =
      { cf with _internal_format :=
          { cf._internal_format with bar_axis_color := v.value } }) ∧
    (∀ cf v, ConditionalFormat.set_icon_style cf v =
      { cf with _internal_format :=
          { cf._internal_format with icon_style := v.value } }) ∧
    (∀ cf v, ConditionalFormat.set_reverse_icons cf v =
      { cf with _internal_format :=
          { cf._internal_format with reverse_icons := convert_bool v } }) ∧
    (∀ cf v, ConditionalFormat.set_icons_only cf v =
      { cf with _internal_format :=
          { cf._internal_format with icons_only := convert_bool v } }) ∧
    (∀ cf v, ConditionalFormat.set_multi_range cf v =
      { cf with _internal_format :=
          { cf._internal_format with
              multi_range :=
                bytesPtrOrNull (option_str_to_cstr_bytes v) } }) ∧
    (∀ cf v, (ConditionalFormat.set_multi_range cf v).string_value =
      cf.string_value) ∧
    (∀ cf v, ConditionalFormat.set_stop_if_true cf v =
      { cf with _internal_format :=
          { cf._internal_format with stop_if_true := convert_bool v } }) := by
  refine ⟨?_, ?_, ?_, ?_, ?_, ?_, ?_, ?_, ?_, ?_, ?_, ?_, ?_, ?_, ?_,
    ?_, ?_, ?_, ?_, ?_, ?_, ?_, ?_, ?_, ?_, ?_, ?_, ?_, ?_, ?_, ?_,
    ?_, ?_, ?_, ?_, ?_, ?_, ?_, ?_, ?_⟩ <;> exact fun cf v => rfl

/-- Closed form of the pointer array built by `write_rich_string`. -/
lemma richStringArray_eq (text : List (RStr × Option Format)) :
    richStringArray text =
      text.map (fun x => some
        (⟨formatPtrOrNull x.2, x.1 ++ [0]⟩ : LxwRichStringTuple)) ++
      [none] := by
  unfold richStringArray
  induction text with
  | nil => rfl
  | cons a t ih =>
    simp only [List.map_cons, List.zip_cons_cons, List.cons_append]
    exact congrArg _ ih

/-- C9: for an input of `n` fragments, the pointer array handed to the
native rich-string routine has exactly `n + 1` entries; its last entry
is the null pointer, and for each `i < n` its `i`-th entry points to a
tuple holding the NUL-terminated bytes of fragment `i` together with
the fragment's format pointer when a format was given and the null
pointer otherwise. -/
theorem write_rich_string_marshalling
    (text : List (RStr × Option Format)) :
    (richStringArray text).length = text.length + 1 ∧
    (richStringArray text).getLast? = some none ∧
    ∀ i (h : i < text.length),
      (richStringArray text)[i]? = some (some
        ⟨formatPtrOrNull (text.get ⟨i, h⟩).2, (text.get ⟨i, h⟩).1 ++ [0]⟩) := by
  rw [richStringArray_eq]
  refine ⟨by simp, by simp, fun i h => ?_⟩
  rw [List.getElem?_append_left (by simpa using h), List.getElem?_map,
    List.getElem?_eq_getElem (by simpa using h)]
  simp [List.get_eq_getElem]

/-- Witness for C9 on a two-fragment input: one fragment without a
format, one with one. -/
theorem write_rich_string_marshalling_witness :
    (richStringArray [([72], none), ([73], some ⟨5⟩)]).length = 3 ∧
    (richStringArray [([72], none), ([73], some ⟨5⟩)]).getLast? =
      some none ∧
    (richStringArray [([72], none), ([73], some ⟨5⟩)])[0]? =
      some (some ⟨.null, [72, 0]⟩) ∧
    (richStringArray [([72], none), ([73], some ⟨5⟩)])[1]? =
      some (some ⟨.mk 5, [73, 0]⟩) := by
  have h := write_rich_string_marshalling [([72], none), ([73], some ⟨5⟩)]
  exact ⟨h.1, h.2.1, h.2.2 0 (by decide), h.2.2 1 (by decide)⟩
